import Mathlib

/-!
Shallow embedding of the clinic-backend route handlers
(`routes/patients.py`, `routes/procedures.py`, `routes/appointments.py`,
`routes/users.py`, `routes/auth.py`) and proofs about the behaviour their
specification claims.

JSON payload values are modelled by `JVal`; Python `None` is `JVal.null`
(a key absent from the payload behaves like `null` for `dict.get`).
Python floats are modelled by `PyFloat`: a finite rational, or `nan`, `inf`,
`ninf` (float rounding is abstracted to exact rational arithmetic; the
claims under study depend only on which values are summed or stored,
never on rounding).  Handlers are pure functions returning
`Except Err result`; an `Except.error` models an HTTP error response
with no committed database change (the app commits only at the end of a
successful handler, and the spec requires full rollback on failure).
-/

/-- Python float values as stored in `valor_plano` / `valor_particular`:
a finite rational or one of the special values NaN, +inf, -inf. -/
inductive PyFloat where
  | finite : ℚ → PyFloat
  | nan : PyFloat
  | inf : PyFloat
  | ninf : PyFloat
  deriving DecidableEq, Repr

/-- JSON values appearing in request payloads; `null` doubles as Python
`None` (and as the result of `dict.get` on an absent key). -/
inductive JVal where
  | str : String → JVal
  | num : PyFloat → JVal
  | bool : Bool → JVal
  | list : List JVal → JVal
  | null : JVal

/-- A JSON object payload, as delivered by `request.get_json()`. -/
def Payload := List (String × JVal)

/-- Characters removed by Python `str.strip()` with no argument. -/
def isSpaceChar (c : Char) : Bool :=
  c = ' ' || c = '\t' || c = '\n' || c = '\r' || c = '\x0b' || c = '\x0c'

/-- Python `str.strip()`: remove leading and trailing whitespace. -/
def pyStrip (s : String) : String :=
  ⟨((s.toList.dropWhile isSpaceChar).reverse.dropWhile isSpaceChar).reverse⟩

/-- Python truthiness (`bool(v)`) on JSON values. -/
def JVal.truthy : JVal → Bool
  | .null => false
  | .bool b => b
  | .str s => s ≠ ""
  | .num (.finite q) => q ≠ 0
  | .num _ => true
  | .list l => !l.isEmpty

/-- The helper `is_valid_string` defined identically in every route file:
true iff the value is a string that is non-empty after `strip()`. -/
def is_valid_string (v : JVal) : Bool :=
  match v with
  | .str s => pyStrip s ≠ ""
  | _ => false

/-- Lookup of a key in a JSON object (`data[k]` when present). -/
def jlookup (d : Payload) (k : String) : Option JVal :=
  (List.find? (fun kv => kv.1 = k) d).map (fun kv => kv.2)

/-- Python `k in data`. -/
def hasKey (d : Payload) (k : String) : Bool :=
  (jlookup d k).isSome

/-- Python `data.get(k)`: `null` when the key is absent (or bound to null),
so that `data.get(k) is None` is modelled by `jget d k = .null`. -/
def jget (d : Payload) (k : String) : JVal :=
  (jlookup d k).getD .null

/-- Digit list to number, `none` on empty or non-digit input. -/
def digitsToNat? (cs : List Char) : Option ℕ :=
  if cs ≠ [] && cs.all Char.isDigit then
    some (cs.foldl (fun acc c => acc * 10 + (c.toNat - 48)) 0)
  else none

/-- Value of a decimal literal `ipart.fpart` as an exact rational. -/
def decimalValue (ipart fpart : List Char) : ℚ :=
  let i : ℕ := ipart.foldl (fun acc c => acc * 10 + (c.toNat - 48)) 0
  let f : ℕ := fpart.foldl (fun acc c => acc * 10 + (c.toNat - 48)) 0
  (i : ℚ) + (f : ℚ) / ((10 : ℚ) ^ fpart.length)

/-- Split a character list at the first `.`, if any. -/
def breakDot : List Char → List Char × Option (List Char)
  | [] => ([], none)
  | '.' :: rest => ([], some rest)
  | c :: rest =>
      let p := breakDot rest
      (c :: p.1, p.2)

/-- Parse the digit portion of a float literal: `D`, `D.`, `D.F` or `.F`
with `D`, `F` digit runs (a second dot lands in `F` and fails the digit
check, as in CPython).  Exponent suffixes, underscores and hex floats
accepted by CPython are outside the inputs this development evaluates. -/
def parseDecimal? (cs : List Char) : Option ℚ :=
  match breakDot cs with
  | (ip, none) => if ip ≠ [] && ip.all Char.isDigit then some (decimalValue ip []) else none
  | (ip, some fp) =>
      if (ip ≠ [] || fp ≠ []) && ip.all Char.isDigit && fp.all Char.isDigit then
        some (decimalValue ip fp)
      else none

/-- Models CPython `float(s)` on a string: optional sign, then `nan`,
`inf`/`infinity` (case-insensitive) or a decimal literal, surrounded by
optional whitespace. -/
def pyFloatOfString (s : String) : Option PyFloat :=
  let t := (pyStrip s).toList.map Char.toLower
  let core : List Char → Bool → Option PyFloat := fun cs neg =>
    if cs = ['n','a','n'] then some .nan
    else if cs = ['i','n','f'] || cs = ['i','n','f','i','n','i','t','y'] then
      some (if neg then .ninf else .inf)
    else
      (parseDecimal? cs).map (fun q => .finite (if neg then -q else q))
  match t with
  | '+' :: rest => core rest false
  | '-' :: rest => core rest true
  | rest => core rest false

/-- Models CPython `float(v)` on a JSON value: numbers pass through,
booleans coerce to 0/1, strings are parsed; `none` models the
`ValueError`/`TypeError` caught by the handlers. -/
def pyFloat : JVal → Option PyFloat
  | .num n => some n
  | .bool b => some (.finite (if b then 1 else 0))
  | .str s => pyFloatOfString s
  | _ => none

/-- Models CPython `int(v)`: floats truncate toward zero, `nan`/`inf`
raise, strings must be an optionally-signed digit run, booleans coerce;
`none` models the caught exception. -/
def pyInt : JVal → Option ℤ
  | .num (.finite q) => some (Int.tdiv q.num q.den)
  | .num _ => none
  | .bool b => some (if b then 1 else 0)
  | .str s =>
      let t := (pyStrip s).toList
      match t with
      | '+' :: rest => (digitsToNat? rest).map (fun n => (n : ℤ))
      | '-' :: rest => (digitsToNat? rest).map (fun n => -(n : ℤ))
      | rest => (digitsToNat? rest).map (fun n => (n : ℤ))
  | _ => none

/-- IEEE-style addition on the float model: NaN propagates, opposite
infinities give NaN, finite parts add exactly. -/
def PyFloat.add : PyFloat → PyFloat → PyFloat
  | .nan, _ => .nan
  | _, .nan => .nan
  | .inf, .ninf => .nan
  | .ninf, .inf => .nan
  | .inf, _ => .inf
  | _, .inf => .inf
  | .ninf, _ => .ninf
  | _, .ninf => .ninf
  | .finite a, .finite b => .finite (a + b)

/-- A calendar date (`datetime.date`). -/
structure Date where
  year : ℕ
  month : ℕ
  day : ℕ
  deriving DecidableEq, Repr

/-- A timestamp (`datetime.datetime`, second precision). -/
structure DateTime where
  year : ℕ
  month : ℕ
  day : ℕ
  hour : ℕ
  minute : ℕ
  second : ℕ
  deriving DecidableEq, Repr

/-- The `.date()` projection of a datetime. -/
def DateTime.date (t : DateTime) : Date :=
  ⟨t.year, t.month, t.day⟩

/-- Injective monotone key for comparing datetimes (CPython compares
field-lexicographically; fields are within range for parsed values). -/
def DateTime.key (t : DateTime) : ℕ :=
  ((((t.year * 13 + t.month) * 32 + t.day) * 24 + t.hour) * 60 + t.minute) * 60 + t.second

/-- Days from civil date (proleptic Gregorian), Hinnant's algorithm;
differences match Python `date` subtraction (`timedelta.days`). -/
def daysFromCivil (y m d : ℕ) : ℤ :=
  let yy : ℤ := if m ≤ 2 then (y : ℤ) - 1 else (y : ℤ)
  let era : ℤ := Int.fdiv yy 400
  let yoe : ℤ := yy - era * 400
  let mp : ℤ := ((m : ℤ) + 9) % 12
  let doy : ℤ := Int.fdiv (153 * mp + 2) 5 + (d : ℤ) - 1
  let doe : ℤ := yoe * 365 + Int.fdiv yoe 4 - Int.fdiv yoe 100 + doy
  era * 146097 + doe - 719468

/-- Day number of a date. -/
def Date.toDays (d : Date) : ℤ :=
  daysFromCivil d.year d.month d.day

/-- Age in whole years exactly as the source computes it:
`(date.today() - birth).days // 365` (floor division). -/
def ageOn (today birth : Date) : ℤ :=
  Int.fdiv (today.toDays - birth.toDays) 365

/-- Gregorian leap year. -/
def isLeap (y : ℕ) : Bool :=
  y % 4 = 0 && (y % 100 ≠ 0 || y % 400 = 0)

/-- Length of a month. -/
def daysInMonth (y m : ℕ) : ℕ :=
  if m = 2 then (if isLeap y then 29 else 28)
  else if m = 4 || m = 6 || m = 9 || m = 11 then 30
  else 31

/-- Two decimal digits to a number. -/
def d2 (a b : Char) : Option ℕ :=
  if a.isDigit && b.isDigit then some ((a.toNat - 48) * 10 + (b.toNat - 48)) else none

/-- Four decimal digits to a number. -/
def d4 (a b c e : Char) : Option ℕ :=
  if a.isDigit && b.isDigit && c.isDigit && e.isDigit then
    some ((((a.toNat - 48) * 10 + (b.toNat - 48)) * 10 + (c.toNat - 48)) * 10 + (e.toNat - 48))
  else none

/-- Range-checked date constructor (CPython validates month and day). -/
def mkDate? (y m d : ℕ) : Option Date :=
  if 1 ≤ y && y ≤ 9999 && 1 ≤ m && m ≤ 12 && 1 ≤ d && d ≤ daysInMonth y m then
    some ⟨y, m, d⟩
  else none

/-- Models `datetime.fromisoformat` on the formats this API exchanges:
`YYYY-MM-DD`, `YYYY-MM-DD*HH:MM` and `YYYY-MM-DD*HH:MM:SS` (any single
separator character, as in CPython < 3.11); field ranges are validated. -/
def fromisoformat (s : String) : Option DateTime :=
  match s.toList with
  | [a, b, c, e, '-', f, g, '-', h, i] => do
      let y ← d4 a b c e
      let mo ← d2 f g
      let dd ← d2 h i
      let dt ← mkDate? y mo dd
      pure ⟨dt.year, dt.month, dt.day, 0, 0, 0⟩
  | [a, b, c, e, '-', f, g, '-', h, i, _, j, k, ':', l, m] => do
      let y ← d4 a b c e
      let mo ← d2 f g
      let dd ← d2 h i
      let hh ← d2 j k
      let mi ← d2 l m
      let dt ← mkDate? y mo dd
      if hh ≤ 23 && mi ≤ 59 then pure ⟨dt.year, dt.month, dt.day, hh, mi, 0⟩ else none
  | [a, b, c, e, '-', f, g, '-', h, i, _, j, k, ':', l, m, ':', n, o] => do
      let y ← d4 a b c e
      let mo ← d2 f g
      let dd ← d2 h i
      let hh ← d2 j k
      let mi ← d2 l m
      let ss ← d2 n o
      let dt ← mkDate? y mo dd
      if hh ≤ 23 && mi ≤ 59 && ss ≤ 59 then pure ⟨dt.year, dt.month, dt.day, hh, mi, ss⟩
      else none
  | _ => none

/-- The `parse_date` helper of `routes/patients.py`:
`datetime.fromisoformat(date_str).date()`. -/
def parse_date (s : String) : Option Date :=
  (fromisoformat s).map DateTime.date

/-- An HTTP error response: status code and body message. -/
structure Err where
  status : ℕ
  msg : String
  deriving DecidableEq, Repr

instance {ε α : Type} [DecidableEq ε] [DecidableEq α] : DecidableEq (Except ε α) := fun a b =>
  match a, b with
  | .ok x, .ok y =>
      if h : x = y then .isTrue (by rw [h]) else .isFalse (by simp [h])
  | .error x, .error y =>
      if h : x = y then .isTrue (by rw [h]) else .isFalse (by simp [h])
  | .ok _, .error _ => .isFalse (by simp)
  | .error _, .ok _ => .isFalse (by simp)

/-- Scalar equality as SQL `filter_by` compares a stored column value
with a query value (list payloads never reach column comparisons). -/
def JVal.jeq : JVal → JVal → Bool
  | .str a, .str b => a = b
  | .num a, .num b => a = b
  | .bool a, .bool b => a = b
  | .null, .null => true
  | _, _ => false

/-- Python `v == s` for a string `s`: equal strings only (values of other
types compare unequal). -/
def JVal.eqStr : JVal → String → Bool
  | .str t, s => t = s
  | _, _ => false

/-- Whether a JSON value is a string (`isinstance(value, str)`). -/
def JVal.isStr : JVal → Bool
  | .str _ => true
  | _ => false

/-- Python `v == True` (`True == 1` holds in Python). -/
def JVal.pyEqTrue : JVal → Bool
  | .bool b => b
  | .num (.finite q) => q = 1
  | _ => false

/-- The value of key `k` with strings stripped, as in the `data_cleaned`
comprehension of `create_patient`. -/
def jgetClean (d : Payload) (k : String) : JVal :=
  match jget d k with
  | .str s => .str (pyStrip s)
  | v => v

/-- Stripped string content of key `k` (callers establish it is a string). -/
def stripOf (d : Payload) (k : String) : String :=
  match jget d k with
  | .str s => pyStrip s
  | _ => ""

/-- The check of the required-field loops in `create_patient`:
`not value or (isinstance(value, str) and not is_valid_string(value))`. -/
def missingOrEmpty (d : Payload) (f : String) : Bool :=
  let v := jget d f
  !v.truthy || (v.isStr && !is_valid_string v)

/-- A Patient row.  The ten free-text columns hold whatever scalar the
create payload carried (SQLite stores dynamically); guardian sub-fields
are nullable and only ever assigned stripped strings / parsed dates. -/
structure Patient where
  id : ℕ
  cpf : JVal
  nome : JVal
  email : JVal
  telefone : JVal
  data_nascimento : Date
  estado : JVal
  cidade : JVal
  bairro : JVal
  cep : JVal
  rua : JVal
  numero : JVal
  resp_cpf : Option String := none
  resp_nome : Option String := none
  resp_data_nascimento : Option Date := none
  resp_email : Option String := none
  resp_telefone : Option String := none

/-- Required patient fields with display names, in source dict order. -/
def patientRequiredFields : List (String × String) :=
  [("cpf", "CPF"), ("nome", "Nome"), ("email", "Email"), ("telefone", "Telefone"),
   ("data_nascimento", "Data de Nascimento"), ("estado", "Estado"), ("cidade", "Cidade"),
   ("bairro", "Bairro"), ("cep", "CEP"), ("rua", "Rua"), ("numero", "Número")]

/-- Guardian (responsável) fields with display names, in source order. -/
def patientRespFields : List (String × String) :=
  [("resp_cpf", "CPF do Responsável"), ("resp_nome", "Nome do Responsável"),
   ("resp_data_nascimento", "Data de Nascimento do Responsável"),
   ("resp_email", "Email do Responsável"), ("resp_telefone", "Telefone do Responsável")]

/-- The `Patient(...)` constructor call of `create_patient`, from the
cleaned payload. -/
def basePatientOf (newId : ℕ) (d : Payload) (pn : Date) : Patient :=
  { id := newId, cpf := jgetClean d "cpf", nome := jgetClean d "nome",
    email := jgetClean d "email", telefone := jgetClean d "telefone",
    data_nascimento := pn, estado := jgetClean d "estado",
    cidade := jgetClean d "cidade", bairro := jgetClean d "bairro",
    cep := jgetClean d "cep", rua := jgetClean d "rua",
    numero := jgetClean d "numero" }

/-- The `if age < 18:` block of `create_patient`: validate the five
guardian fields, strip them (the comprehension raises `AttributeError`
— an uncaught 500 — on a truthy non-string value), parse the guardian
birth date and require guardian age ≥ 18. -/
def minorGuardianStep (today : Date) (d : Payload) (base : Patient) : Except Err Patient :=
  match patientRespFields.find? (fun fd => missingOrEmpty d fd.1) with
  | some fd =>
      .error ⟨400, "Paciente menor: campo " ++ fd.2 ++ " obrigatório e não pode ser vazio"⟩
  | none =>
    if patientRespFields.any (fun fd => !(jget d fd.1).isStr) then
      .error ⟨500, "AttributeError"⟩
    else
      match parse_date (stripOf d "resp_data_nascimento") with
      | none => .error ⟨400, "resp_data_nascimento formato ISO (YYYY-MM-DD) esperado"⟩
      | some rd =>
        if ageOn today rd < 18 then
          .error ⟨400, "Responsável não pode ser menor de idade"⟩
        else
          .ok { base with
                resp_cpf := some (stripOf d "resp_cpf"),
                resp_nome := some (stripOf d "resp_nome"),
                resp_data_nascimento := some rd,
                resp_email := some (stripOf d "resp_email"),
                resp_telefone := some (stripOf d "resp_telefone") }

/-- POST /patients/ (`create_patient` in `routes/patients.py`).  `today`
is `date.today()`, `db` the existing patient rows, `newId` the id the
store assigns.  An `Except.error` is the returned error response; the
500 case models the uncaught `AttributeError` raised by the
`v.strip()` comprehension when a guardian value is a non-string. -/
def create_patient (today : Date) (db : List Patient) (newId : ℕ) (d : Payload) :
    Except Err Patient :=
  match patientRequiredFields.find? (fun fd => missingOrEmpty d fd.1) with
  | some fd => .error ⟨400, "Campo " ++ fd.2 ++ " obrigatório e não pode ser vazio"⟩
  | none =>
    if db.any (fun p => p.cpf.jeq (jgetClean d "cpf")) then
      .error ⟨400, "CPF já cadastrado"⟩
    else if db.any (fun p => p.email.jeq (jgetClean d "email")) then
      .error ⟨400, "Email já cadastrado"⟩
    else
      match (match jgetClean d "data_nascimento" with
             | .str s => parse_date s
             | _ => none) with
      | none => .error ⟨400, "data_nascimento formato ISO (YYYY-MM-DD) esperado"⟩
      | some pn =>
        if ageOn today pn < 18 then minorGuardianStep today d (basePatientOf newId d pn)
        else .ok (basePatientOf newId d pn)

/-- Fields validated by the string loop of `update_patient`, in order. -/
def patientStringFields : List String :=
  ["cpf", "nome", "email", "telefone", "estado", "cidade", "bairro", "cep", "rua", "numero"]

/-- `setattr(patient, field, cleaned_value)` for the non-unique fields. -/
def setPatientField (p : Patient) (field : String) (val : String) : Patient :=
  if field = "nome" then { p with nome := .str val }
  else if field = "telefone" then { p with telefone := .str val }
  else if field = "estado" then { p with estado := .str val }
  else if field = "cidade" then { p with cidade := .str val }
  else if field = "bairro" then { p with bairro := .str val }
  else if field = "cep" then { p with cep := .str val }
  else if field = "rua" then { p with rua := .str val }
  else if field = "numero" then { p with numero := .str val }
  else p

/-- One iteration of the string-field loop of `update_patient`. -/
def applyPatientField (db : List Patient) (p : Patient) (d : Payload) (field : String) :
    Except Err Patient :=
  if hasKey d field then
    let v := jget d field
    if !is_valid_string v then .error ⟨400, "O campo " ++ field ++ " não pode ser vazio"⟩
    else
      let cleaned := match v with | .str s => pyStrip s | _ => ""
      if field = "cpf" then
        if !p.cpf.eqStr cleaned then
          if db.any (fun q => q.cpf.eqStr cleaned) then .error ⟨400, "CPF já cadastrado"⟩
          else .ok { p with cpf := .str cleaned }
        else .ok p
      else if field = "email" then
        if !p.email.eqStr cleaned then
          if db.any (fun q => q.email.eqStr cleaned) then .error ⟨400, "Email já cadastrado"⟩
          else .ok { p with email := .str cleaned }
        else .ok p
      else .ok (setPatientField p field cleaned)
  else .ok p

/-- The string-field loop of `update_patient`. -/
def applyPatientFields (db : List Patient) (p : Patient) (d : Payload) :
    List String → Except Err Patient
  | [] => .ok p
  | f :: fs =>
      match applyPatientField db p d f with
      | .error e => .error e
      | .ok p1 => applyPatientFields db p1 d fs

/-- The `data_nascimento` step of `update_patient`: gated on TRUTHINESS
of the value (an empty string is skipped silently). -/
def applyDataNascimento (p : Patient) (d : Payload) : Except Err Patient :=
  let v := jget d "data_nascimento"
  if !v.truthy then .ok p
  else if !is_valid_string v then
    .error ⟨400, "O campo data_nascimento não pode ser vazio"⟩
  else
    match v with
    | .str s =>
        match parse_date (pyStrip s) with
        | some dt => .ok { p with data_nascimento := dt }
        | none => .error ⟨400, "data_nascimento formato ISO (YYYY-MM-DD) esperado"⟩
    | _ => .error ⟨400, "O campo data_nascimento não pode ser vazio"⟩

/-- PUT /patients/<id> (`update_patient` in `routes/patients.py`).
`db` holds all rows for the duplicate checks (the row itself included,
matching the unguarded `filter_by(...).first()` of the source). -/
def update_patient (today : Date) (db : List Patient) (patient : Patient) (d : Payload) :
    Except Err Patient :=
  match applyPatientFields db patient d patientStringFields with
  | .error e => .error e
  | .ok p1 =>
    match applyDataNascimento p1 d with
    | .error e => .error e
    | .ok p2 =>
      if hasKey d "remove_responsavel" && (jget d "remove_responsavel").pyEqTrue then
        if ageOn today p2.data_nascimento < 18 then
          .error ⟨400, "Não é possível remover responsável enquanto paciente for menor"⟩
        else
          .ok { p2 with resp_cpf := none, resp_nome := none,
                        resp_data_nascimento := none, resp_email := none,
                        resp_telefone := none }
      else .ok p2

/-- Whether a value is Python `None` (`v is None`). -/
def JVal.isNull : JVal → Bool
  | .null => true
  | _ => false

/-- Stripped content of a value known to be a string. -/
def stripVal : JVal → String
  | .str s => pyStrip s
  | _ => ""

/-- The authenticated actor (`request.user`): id and role. -/
structure Actor where
  id : ℕ
  tipo : String
  deriving DecidableEq, Repr

/-- A Procedure row.  Names are stored stripped by both create and
update; prices hold whatever `float(...)` produced. -/
structure Procedure where
  id : ℕ
  nome : String
  descricao : String
  valor_plano : PyFloat
  valor_particular : PyFloat
  deriving DecidableEq, Repr

/-- POST /procedures/ (`create_procedure` in `routes/procedures.py`).
Note: no NaN/Infinity check here — only coercion failure is caught. -/
def create_procedure (actor : Actor) (db : List Procedure) (newId : ℕ) (d : Payload) :
    Except Err Procedure :=
  if actor.tipo ≠ "admin" then .error ⟨403, "Apenas admin pode criar procedimentos"⟩
  else
    match (["nome", "descricao"].find? (fun f => !is_valid_string (jget d f))) with
    | some f => .error ⟨400, "Campo " ++ f ++ " é obrigatório e não pode ser vazio"⟩
    | none =>
      match (["valor_plano", "valor_particular"].find? (fun f => (jget d f).isNull)) with
      | some f => .error ⟨400, "Campo " ++ f ++ " obrigatório"⟩
      | none =>
        let nome := stripOf d "nome"
        let descricao := stripOf d "descricao"
        if db.any (fun p => p.nome = nome) then
          .error ⟨400, "Nome de procedimento já existe"⟩
        else
          match pyFloat (jget d "valor_plano"), pyFloat (jget d "valor_particular") with
          | some vp, some vpr =>
              .ok { id := newId, nome := nome, descricao := descricao,
                    valor_plano := vp, valor_particular := vpr }
          | _, _ => .error ⟨400, "Valores de plano e particular devem ser números válidos"⟩

/-- True when the update handler rejects the coerced value:
`numeric_value != numeric_value or numeric_value == float('inf') or
numeric_value == float('-inf')`. -/
def PyFloat.isNonFinite : PyFloat → Bool
  | .finite _ => false
  | _ => true

/-- One numeric-field iteration of the update loop of `update_procedure`
(`valor_plano` / `valor_particular`). -/
def applyValorField (p : Procedure) (d : Payload) (field : String) : Except Err Procedure :=
  if hasKey d field then
    match pyFloat (jget d field) with
    | none => .error ⟨400, "O campo " ++ field ++ " deve ser um número válido"⟩
    | some n =>
        if n.isNonFinite then .error ⟨400, "O campo " ++ field ++ " possui um valor inválido"⟩
        else
          .ok (if field = "valor_plano" then { p with valor_plano := n }
               else { p with valor_particular := n })
  else .ok p

/-- The `nome` branch of `update_procedure`: entered only when the key
is present AND the raw payload value differs from the current `nome`
(`data['nome'] != proc.nome`, untrimmed); inside, the duplicate lookup
runs over ALL rows, the row being updated included. -/
def applyProcNome (db : List Procedure) (proc : Procedure) (d : Payload) :
    Except Err Procedure :=
  if hasKey d "nome" && !(jget d "nome").eqStr proc.nome then
    if !is_valid_string (jget d "nome") then
      .error ⟨400, "O campo nome não pode ser vazio"⟩
    else
      let new_nome := stripOf d "nome"
      if db.any (fun p => p.nome = new_nome) then
        .error ⟨400, "Nome de procedimento já existe"⟩
      else .ok { proc with nome := new_nome }
  else .ok proc

/-- The `descricao` iteration of the update loop of `update_procedure`. -/
def applyProcDescricao (p : Procedure) (d : Payload) : Except Err Procedure :=
  if hasKey d "descricao" then
    if !is_valid_string (jget d "descricao") then
      .error ⟨400, "O campo descricao não pode ser vazio"⟩
    else .ok { p with descricao := stripOf d "descricao" }
  else .ok p

/-- PUT /procedures/<id> (`update_procedure` in `routes/procedures.py`).
`db` holds all rows (the row being updated included) for the duplicate
check, exactly as the unguarded `filter_by(nome=new_nome).first()`. -/
def update_procedure (actor : Actor) (db : List Procedure) (proc : Procedure) (d : Payload) :
    Except Err Procedure :=
  if actor.tipo ≠ "admin" then .error ⟨403, "Apenas admin pode editar procedimentos"⟩
  else
    match applyProcNome db proc d with
    | .error e => .error e
    | .ok p1 =>
      match applyProcDescricao p1 d with
      | .error e => .error e
      | .ok p2 =>
        match applyValorField p2 d "valor_plano" with
        | .error e => .error e
        | .ok p3 => applyValorField p3 d "valor_particular"

/-- An Appointment row. -/
structure Appointment where
  id : ℕ
  data_hora : DateTime
  tipo : String
  numero_carteira : Option String
  valor_total : PyFloat
  usuario_id : ℕ
  paciente_id : ℕ
  deriving DecidableEq, Repr

/-- An Appointment-Procedure join row. -/
structure AppointmentProcedure where
  atendimento_id : ℕ
  procedimento_id : ℕ
  deriving DecidableEq, Repr

/-- The helper `calc_valor_total` of `routes/appointments.py`: sum of
`valor_plano` when `tipo == 'plano'`, else of `valor_particular`,
starting from `0.0`. -/
def calc_valor_total (proc_objs : List Procedure) (tipo : String) : PyFloat :=
  proc_objs.foldl
    (fun total p => total.add (if tipo = "plano" then p.valor_plano else p.valor_particular))
    (.finite 0)

/-- Primary-key lookup `Patient.query.get(value)` against the set of
existing patient ids (SQLAlchemy coerces integer-like strings). -/
def findPatientId (patientIds : List ℕ) (v : JVal) : Option ℕ :=
  match v with
  | .num (.finite q) =>
      if q.den = 1 && 0 ≤ q.num && patientIds.contains q.num.toNat then some q.num.toNat
      else none
  | .str s =>
      match digitsToNat? (pyStrip s).toList with
      | some n => if patientIds.contains n then some n else none
      | none => none
  | _ => none

/-- The per-id loop shared by create and update: `int(pid)` (400 on
failure) then `Procedure.query.get(pid)` (404 when absent). -/
def resolveProcs (procs : List Procedure) : List JVal → Except Err (List Procedure)
  | [] => .ok []
  | v :: rest =>
      match pyInt v with
      | none => .error ⟨400, "ID de procedimento inválido"⟩
      | some pid =>
          match procs.find? (fun p => (p.id : ℤ) = pid) with
          | none => .error ⟨404, "Procedimento não encontrado"⟩
          | some p =>
              match resolveProcs procs rest with
              | .error e => .error e
              | .ok ps => .ok (p :: ps)

/-- The procedure objects currently linked to an appointment
(`[ap_proc.procedimento for ap_proc in ap.procedimentos_vinculados]`). -/
def linkedProcedures (apId : ℕ) (links : List AppointmentProcedure) (procs : List Procedure) :
    List Procedure :=
  (links.filter (fun lk => lk.atendimento_id = apId)).filterMap
    (fun lk => procs.find? (fun p => p.id = lk.procedimento_id))

/-- POST /appointments/ (`create_appointment` in `routes/appointments.py`). -/
def create_appointment (actor : Actor) (patientIds : List ℕ) (procs : List Procedure)
    (newId : ℕ) (d : Payload) : Except Err (Appointment × List AppointmentProcedure) :=
  match (["data_hora", "paciente_id", "procedimentos", "tipo"].find?
          (fun f => (jget d f).isNull)) with
  | some f => .error ⟨400, "Campo " ++ f ++ " obrigatório"⟩
  | none =>
    let tipoV := jget d "tipo"
    if !is_valid_string tipoV || !(tipoV.eqStr "plano" || tipoV.eqStr "particular") then
      .error ⟨400, "tipo deve ser \"plano\" ou \"particular\" e não pode ser vazio"⟩
    else
      match (match jget d "data_hora" with | .str s => fromisoformat s | _ => none) with
      | none => .error ⟨400, "data_hora formato ISO (YYYY-MM-DDTHH:MM:SS) esperado"⟩
      | some dh =>
        match findPatientId patientIds (jget d "paciente_id") with
        | none => .error ⟨404, "Paciente não encontrado"⟩
        | some pid =>
          match jget d "procedimentos" with
          | .list l =>
            if l.isEmpty then .error ⟨400, "Deve existir pelo menos um procedimento associado"⟩
            else
              match resolveProcs procs l with
              | .error e => .error e
              | .ok proc_objs =>
                let tipo := stripVal tipoV
                match (if tipoV.eqStr "plano" then
                         if !is_valid_string (jget d "numero_carteira") then
                           .error ⟨400, "numero_carteira obrigatório e não pode ser vazio para tipo plano"⟩
                         else .ok (some (stripOf d "numero_carteira"))
                       else .ok none : Except Err (Option String)) with
                | .error e => .error e
                | .ok nc =>
                  .ok ({ id := newId, data_hora := dh, tipo := tipo, numero_carteira := nc,
                         valor_total := calc_valor_total proc_objs tipo,
                         usuario_id := actor.id, paciente_id := pid },
                       proc_objs.map (fun p => { atendimento_id := newId, procedimento_id := p.id }))
          | _ => .error ⟨400, "Deve existir pelo menos um procedimento associado"⟩

/-- The `data_hora` step of `update_appointment` (truthiness-gated). -/
def applyApDataHora (ap : Appointment) (d : Payload) : Except Err Appointment :=
  let v := jget d "data_hora"
  if !v.truthy then .ok ap
  else if !is_valid_string v then .error ⟨400, "data_hora não pode ser vazio"⟩
  else
    match v with
    | .str s =>
        match fromisoformat (pyStrip s) with
        | some t => .ok { ap with data_hora := t }
        | none => .error ⟨400, "data_hora formato ISO (YYYY-MM-DDTHH:MM:SS) esperado"⟩
    | _ => .error ⟨400, "data_hora não pode ser vazio"⟩

/-- The `paciente_id` step of `update_appointment` (truthiness-gated). -/
def applyApPaciente (patientIds : List ℕ) (ap : Appointment) (d : Payload) :
    Except Err Appointment :=
  let v := jget d "paciente_id"
  if !v.truthy then .ok ap
  else
    match findPatientId patientIds v with
    | none => .error ⟨404, "Paciente não encontrado"⟩
    | some pid => .ok { ap with paciente_id := pid }

/-- The `procedimentos` step of `update_appointment`: presence-gated
(`is not None`); deletes every old link of the appointment then inserts
one per resolved procedure; returns the resolved list when replaced. -/
def applyApProcs (procs : List Procedure) (links : List AppointmentProcedure)
    (ap : Appointment) (d : Payload) :
    Except Err (List AppointmentProcedure × Option (List Procedure)) :=
  match jget d "procedimentos" with
  | .null => .ok (links, none)
  | .list l =>
      if l.isEmpty then .error ⟨400, "Deve existir pelo menos um procedimento associado"⟩
      else
        let links0 := links.filter (fun lk => lk.atendimento_id ≠ ap.id)
        match resolveProcs procs l with
        | .error e => .error e
        | .ok objs =>
            .ok (links0 ++ objs.map
                  (fun p => ({ atendimento_id := ap.id, procedimento_id := p.id } :
                    AppointmentProcedure)),
                 some objs)
  | _ => .error ⟨400, "Deve existir pelo menos um procedimento associado"⟩

/-- The `tipo` step of `update_appointment` (truthiness-gated). -/
def applyApTipo (ap : Appointment) (d : Payload) : Except Err Appointment :=
  let v := jget d "tipo"
  if !v.truthy then .ok ap
  else if !is_valid_string v || !(v.eqStr "plano" || v.eqStr "particular") then
    .error ⟨400, "tipo deve ser \"plano\" ou \"particular\" e não pode ser vazio"⟩
  else .ok { ap with tipo := stripVal v }

/-- The `numero_carteira` step of `update_appointment`: presence-gated;
an invalid (empty / whitespace / non-string) supplied value CLEARS the
column, a valid one is stored stripped.  Never errors. -/
def applyApCarteira (ap : Appointment) (d : Payload) : Appointment :=
  let v := jget d "numero_carteira"
  if v.isNull then ap
  else if !is_valid_string v then { ap with numero_carteira := none }
  else { ap with numero_carteira := some (stripVal v) }

/-- Python falsiness of the stored `numero_carteira`
(`not ap.numero_carteira`). -/
def pyFalsyOptStr : Option String → Bool
  | none => true
  | some s => s = ""

/-- The field-application phase of `update_appointment`: every payload
field applied in source order, before the final `numero_carteira`
re-check and the `valor_total` recomputation. -/
def applyAppointmentUpdates (patientIds : List ℕ) (procs : List Procedure)
    (links : List AppointmentProcedure) (ap : Appointment) (d : Payload) :
    Except Err (Appointment × List AppointmentProcedure × Option (List Procedure)) :=
  match applyApDataHora ap d with
  | .error e => .error e
  | .ok ap1 =>
    match applyApPaciente patientIds ap1 d with
    | .error e => .error e
    | .ok ap2 =>
      match applyApProcs procs links ap2 d with
      | .error e => .error e
      | .ok (links1, newProcs) =>
        match applyApTipo ap2 d with
        | .error e => .error e
        | .ok ap3 => .ok (applyApCarteira ap3 d, links1, newProcs)

/-- PUT /appointments/<id> (`update_appointment` in
`routes/appointments.py`). -/
def update_appointment (actor : Actor) (patientIds : List ℕ) (procs : List Procedure)
    (links : List AppointmentProcedure) (ap : Appointment) (d : Payload) :
    Except Err (Appointment × List AppointmentProcedure) :=
  if actor.tipo ≠ "admin" && actor.id ≠ ap.usuario_id then
    .error ⟨403, "Apenas criador ou admin pode editar atendimento"⟩
  else
    match applyAppointmentUpdates patientIds procs links ap d with
    | .error e => .error e
    | .ok (ap1, links1, newProcs) =>
      if ap1.tipo = "plano" && pyFalsyOptStr ap1.numero_carteira then
        .error ⟨400, "numero_carteira obrigatório para tipo plano"⟩
      else
        if newProcs.isSome || hasKey d "tipo" then
          let proc_objs := newProcs.getD (linkedProcedures ap1.id links1 procs)
          .ok ({ ap1 with valor_total := calc_valor_total proc_objs ap1.tipo }, links1)
        else .ok (ap1, links1)

/-- The invariant of §3: `valor_total` agrees with the currently linked
procedure set under the current `tipo`. -/
def valorTotalConsistent (ap : Appointment) (links : List AppointmentProcedure)
    (procs : List Procedure) : Prop :=
  ap.valor_total = calc_valor_total (linkedProcedures ap.id links procs) ap.tipo

/-- A query-string argument (`request.args.get(...)`) as a Python value:
`None` when absent, the string otherwise. -/
def argJVal : Option String → JVal
  | some s => .str s
  | none => .null

/-- The ordering used by `order_by(Appointment.data_hora)`: comparison
of the lexicographic keys of the timestamps. -/
def apDataHoraLe (a b : Appointment) : Prop :=
  a.data_hora.key ≤ b.data_hora.key

instance : DecidableRel apDataHoraLe := fun a b => Nat.decLe a.data_hora.key b.data_hora.key

instance : IsTotal Appointment apDataHoraLe :=
  ⟨fun x y => Nat.le_total x.data_hora.key y.data_hora.key⟩

instance : IsTrans Appointment apDataHoraLe := ⟨fun _ _ _ => Nat.le_trans⟩

/-- GET /appointments/between (`list_between_dates` in
`routes/appointments.py`).  Query args arrive as optional strings. -/
def list_between_dates (db : List Appointment) (startArg endArg : Option String) :
    Except Err (List Appointment) :=
  let startV := argJVal startArg
  let endV := argJVal endArg
  if !is_valid_string startV || !is_valid_string endV then
    .error ⟨400, "Parâmetros start e end obrigatórios e não podem ser vazios"⟩
  else
    let startC := stripVal startV
    let endC := stripVal endV
    match fromisoformat startC, fromisoformat endC with
    | some s, some e0 =>
        let e := if endC.length = 10 then { e0 with hour := 23, minute := 59, second := 59 }
                 else e0
        .ok (List.insertionSort apDataHoraLe
              (db.filter (fun a => decide (s.key ≤ a.data_hora.key ∧ a.data_hora.key ≤ e.key))))
    | _, _ =>
        .error ⟨400, "Formato de data inválido, use ISO (YYYY-MM-DD ou YYYY-MM-DDTHH:MM:SS)"⟩

/-- A User row (`senha` stands for the stored password hash; hashing is
an external collaborator and is modelled as the identity on the
stripped password). -/
structure User where
  id : ℕ
  email : String
  nome : String
  tipo : String
  senha : String
  deriving DecidableEq, Repr

/-- POST /users/ (`create_user` in `routes/users.py`):
`tipo = data.get('tipo', 'default')`. -/
def create_user (actor : Actor) (db : List User) (newId : ℕ) (d : Payload) : Except Err User :=
  if actor.tipo ≠ "admin" then .error ⟨403, "Apenas admin pode cadastrar usuários"⟩
  else
    let emailV := jget d "email"
    let nomeV := jget d "nome"
    let tipoV := match jlookup d "tipo" with | none => .str "default" | some v => v
    let senhaV := jget d "senha"
    if !(is_valid_string emailV && is_valid_string nomeV && is_valid_string tipoV &&
         is_valid_string senhaV) then
      .error ⟨400, "email, nome, tipo, e senha são obrigatórios e não podem ser vazios"⟩
    else
      let email := stripVal emailV
      let nome := stripVal nomeV
      let tipo := stripVal tipoV
      let senha := stripVal senhaV
      if tipo ≠ "admin" && tipo ≠ "default" then .error ⟨400, "tipo inválido"⟩
      else if db.any (fun u => u.email = email) then .error ⟨400, "email já cadastrado"⟩
      else .ok { id := newId, email := email, nome := nome, tipo := tipo, senha := senha }

/-- GET /users/buscar (`get_by_email` in `routes/users.py`).  Note the
order: the 404 existence check runs BEFORE the admin-or-self check. -/
def get_by_email (actor : Actor) (db : List User) (emailArg : Option String) :
    Except Err User :=
  let emailV := argJVal emailArg
  if !is_valid_string emailV then
    .error ⟨400, "email é obrigatório e não pode ser vazio"⟩
  else
    let email := stripVal emailV
    match db.find? (fun u => u.email = email) with
    | none => .error ⟨404, "Usuário não encontrado"⟩
    | some user =>
        if actor.tipo ≠ "admin" && actor.id ≠ user.id then .error ⟨403, "Acesso negado"⟩
        else .ok user


/-! Helper lemmas shared by the claim theorems. -/

theorem jget_hasKey {d : Payload} {k : String} {s : String}
    (h : jget d k = .str s) : hasKey d k = true := by
  unfold jget at h
  unfold hasKey
  cases hl : jlookup d k with
  | none => rw [hl] at h; exact absurd h (by simp [Option.getD])
  | some v => simp

theorem jget_of_not_hasKey {d : Payload} {k : String}
    (h : hasKey d k = false) : jget d k = .null := by
  unfold hasKey at h
  unfold jget
  cases hl : jlookup d k with
  | none => simp
  | some v => rw [hl] at h; simp at h

/-! Sample rows used by closed counterexamples and witnesses. -/

/-- A sample procedure priced 100 (plano) / 50 (particular). -/
def sampleProc : Procedure :=
  { id := 1, nome := "X", descricao := "D",
    valor_plano := .finite 100, valor_particular := .finite 50 }

/-- A sample user database of two default users. -/
def sampleUserA : User := ⟨1, "a@x", "A", "default", "h"⟩

/-- Second sample user, the lookup target. -/
def sampleUserB : User := ⟨2, "b@x", "B", "default", "h"⟩

/-! C9 — user lookup-by-email: admin-or-self with no existence leak. -/

/-- C9 counterexample: a non-admin actor querying someone else's email
observes 403 when the target exists but 404 when it does not — the
response depends on the target's existence, and is not uniformly
Forbidden, contrary to the claim. -/
theorem C9_counterexample :
    get_by_email ⟨1, "default"⟩ [sampleUserA, sampleUserB] (some "b@x") =
      .error ⟨403, "Acesso negado"⟩ ∧
    get_by_email ⟨1, "default"⟩ [sampleUserA] (some "b@x") =
      .error ⟨404, "Usuário não encontrado"⟩ ∧
    (⟨403, "Acesso negado"⟩ : Err) ≠ ⟨404, "Usuário não encontrado"⟩ :=
  ⟨by decide, by decide, by decide⟩

/-- C9 (amended): for a non-admin actor and a validly supplied email,
the lookup answers 403 when a user with that email exists and is not
the actor, and 404 when no user has that email — so an unauthorized
actor CAN distinguish existence (the existence check precedes the
authorization check). -/
theorem C9_lookup_admin_or_self (actor : Actor) (db : List User) (ea : Option String)
    (hnadmin : actor.tipo ≠ "admin")
    (hvalid : is_valid_string (argJVal ea) = true) :
    (∀ u, db.find? (fun v => v.email = stripVal (argJVal ea)) = some u → u.id ≠ actor.id →
      get_by_email actor db ea = .error ⟨403, "Acesso negado"⟩) ∧
    (db.find? (fun v => v.email = stripVal (argJVal ea)) = none →
      get_by_email actor db ea = .error ⟨404, "Usuário não encontrado"⟩) := by
  constructor
  · intro u hfind hne
    unfold get_by_email
    simp only [hvalid, Bool.not_true, Bool.false_eq_true, if_false, hfind]
    simp [hnadmin]
    exact fun h => hne h.symm
  · intro hfind
    unfold get_by_email
    simp only [hvalid, Bool.not_true, Bool.false_eq_true, if_false, hfind]

/-- C9 witness: the amended theorem applied at the counterexample data. -/
theorem C9_lookup_admin_or_self_witness :
    get_by_email ⟨1, "default"⟩ [sampleUserA, sampleUserB] (some "b@x") =
      .error ⟨403, "Acesso negado"⟩ := by
  have h := C9_lookup_admin_or_self ⟨1, "default"⟩ [sampleUserA, sampleUserB] (some "b@x")
    (by decide) (by decide)
  exact h.1 sampleUserB (by decide) (by decide)

/-! C10 — POST /users/ defaults a missing `tipo` to 'default'. -/

/-- C10: an admin request whose payload omits the `tipo` key but carries
valid email, nome and senha, with an email not already registered,
creates the user with stored `tipo = 'default'`. -/
theorem C10_create_user_defaults_tipo (actor : Actor) (db : List User) (newId : ℕ) (d : Payload)
    (hadmin : actor.tipo = "admin")
    (htipo : jlookup d "tipo" = none)
    (hemail : is_valid_string (jget d "email") = true)
    (hnome : is_valid_string (jget d "nome") = true)
    (hsenha : is_valid_string (jget d "senha") = true)
    (hdup : db.any (fun u => u.email = stripVal (jget d "email")) = false) :
    create_user actor db newId d =
      .ok { id := newId, email := stripVal (jget d "email"), nome := stripVal (jget d "nome"),
            tipo := "default", senha := stripVal (jget d "senha") } := by
  unfold create_user
  rw [hadmin, htipo]
  have hdef : is_valid_string (.str "default") = true := by decide
  have hdefs : stripVal (.str "default") = "default" := by decide
  simp [hemail, hnome, hsenha, hdef, hdefs, hdup]

/-- C10 witness. -/
theorem C10_create_user_defaults_tipo_witness :
    create_user ⟨9, "admin"⟩ [sampleUserA] 3
      [("email", .str "c@x"), ("nome", .str "C"), ("senha", .str "s")] =
      .ok ⟨3, "c@x", "C", "default", "s"⟩ := by
  rw [C10_create_user_defaults_tipo ⟨9, "admin"⟩ [sampleUserA] 3
      [("email", .str "c@x"), ("nome", .str "C"), ("senha", .str "s")]
      rfl rfl (by decide) (by decide) (by decide) (by decide)]
  decide

/-! Stage lemmas for `update_procedure`. -/

theorem applyProcNome_raw_equal {db : List Procedure} {proc : Procedure} {d : Payload}
    (hraw : jget d "nome" = .str proc.nome) : applyProcNome db proc d = .ok proc := by
  unfold applyProcNome
  rw [hraw]
  simp [JVal.eqStr]

theorem applyProcNome_errors {db : List Procedure} {proc : Procedure} {d : Payload} {e : Err}
    (h : applyProcNome db proc d = .error e) :
    e = ⟨400, "O campo nome não pode ser vazio"⟩ ∨
    e = ⟨400, "Nome de procedimento já existe"⟩ := by
  simp only [applyProcNome] at h
  split at h
  · split at h
    · exact .inl (Except.error.inj h).symm
    · split at h
      · exact .inr (Except.error.inj h).symm
      · cases h
  · cases h

theorem applyProcDescricao_ok_nome {p p' : Procedure} {d : Payload}
    (h : applyProcDescricao p d = .ok p') : p'.nome = p.nome := by
  simp only [applyProcDescricao] at h
  split at h
  · split at h
    · cases h
    · rw [← Except.ok.inj h]
  · rw [← Except.ok.inj h]

theorem applyProcDescricao_errors {p : Procedure} {d : Payload} {e : Err}
    (h : applyProcDescricao p d = .error e) :
    e = ⟨400, "O campo descricao não pode ser vazio"⟩ := by
  simp only [applyProcDescricao] at h
  split at h
  · split at h
    · exact (Except.error.inj h).symm
    · cases h
  · cases h

theorem applyValorField_ok_nome {p p' : Procedure} {d : Payload} {f : String}
    (h : applyValorField p d f = .ok p') : p'.nome = p.nome := by
  simp only [applyValorField] at h
  by_cases hk : hasKey d f
  · rw [hk] at h
    simp only [if_true] at h
    cases hpf : pyFloat (jget d f) <;> simp only [hpf] at h
    · cases h
    · rename_i n
      by_cases hnf : n.isNonFinite = true
      · rw [if_pos hnf] at h; cases h
      · rw [if_neg hnf] at h
        rw [← Except.ok.inj h]
        split <;> rfl
  · simp only [hk, Bool.false_eq_true, if_false] at h
    rw [← Except.ok.inj h]

theorem applyValorField_errors {p : Procedure} {d : Payload} {f : String} {e : Err}
    (h : applyValorField p d f = .error e) :
    e = ⟨400, "O campo " ++ f ++ " deve ser um número válido"⟩ ∨
    e = ⟨400, "O campo " ++ f ++ " possui um valor inválido"⟩ := by
  simp only [applyValorField] at h
  by_cases hk : hasKey d f
  · rw [hk] at h
    simp only [if_true] at h
    cases hpf : pyFloat (jget d f) <;> simp only [hpf] at h
    · exact .inl (Except.error.inj h).symm
    · rename_i n
      by_cases hnf : n.isNonFinite = true
      · rw [if_pos hnf] at h
        exact .inr (Except.error.inj h).symm
      · rw [if_neg hnf] at h; cases h
  · simp only [hk, Bool.false_eq_true, if_false] at h
    cases h

theorem applyValorField_not_ok_of_bad {p : Procedure} {d : Payload} {f : String}
    (hk : hasKey d f = true)
    (hbad : pyFloat (jget d f) = none ∨
      ∃ n, pyFloat (jget d f) = some n ∧ n.isNonFinite = true) :
    ∀ p', applyValorField p d f ≠ .ok p' := by
  intro p' h
  simp only [applyValorField] at h
  rw [hk] at h
  simp only [if_true] at h
  rcases hbad with hnone | ⟨n, hn, hnf⟩
  · simp only [hnone] at h
    cases h
  · simp only [hn] at h
    rw [if_pos hnf] at h
    cases h

theorem update_procedure_error_400 {actor : Actor} {db : List Procedure} {proc : Procedure}
    {d : Payload} {e : Err} (hadmin : actor.tipo = "admin")
    (h : update_procedure actor db proc d = .error e) : e.status = 400 := by
  unfold update_procedure at h
  rw [hadmin, if_neg (by simp)] at h
  cases h1 : applyProcNome db proc d <;> simp only [h1] at h
  · cases h
    rcases applyProcNome_errors h1 with h' | h' <;> rw [h']
  · rename_i p1
    cases h2 : applyProcDescricao p1 d <;> simp only [h2] at h
    · cases h
      rw [applyProcDescricao_errors h2]
    · rename_i p2
      cases h3 : applyValorField p2 d "valor_plano" <;> simp only [h3] at h
      · cases h
        rcases applyValorField_errors h3 with h' | h' <;> rw [h']
      · rcases applyValorField_errors h with h' | h' <;> rw [h']

/-! C6 — numeric price validation on Procedure create and update. -/

/-- C6 counterexample: `create_procedure` happily stores a NaN
`valor_plano` (the finiteness check exists only in the update handler),
contradicting the claim that create rejects NaN with 400 and creates no
row. -/
theorem C6_counterexample :
    create_procedure ⟨1, "admin"⟩ [] 2
      [("nome", .str "Y"), ("descricao", .str "D"), ("valor_plano", .num .nan),
        ("valor_particular", .num (.finite 1))] =
      .ok { id := 2, nome := "Y", descricao := "D", valor_plano := .nan,
            valor_particular := .finite 1 } := by decide

/-- C6 (amended): on UPDATE, a supplied `valor_plano`/`valor_particular`
that fails float coercion, or coerces to NaN/±Infinity, makes the
request fail with a 400 error (and, the model being a pure function, no
row is modified).  On CREATE, only coercion failure is rejected: any
successfully coerced value — NaN and ±Infinity included — is accepted
and stored. -/
theorem C6_numeric_validation :
    (∀ (actor : Actor) (db : List Procedure) (proc : Procedure) (d : Payload) (f : String),
      (f = "valor_plano" ∨ f = "valor_particular") → actor.tipo = "admin" →
      hasKey d f = true →
      (pyFloat (jget d f) = none ∨
        ∃ n, pyFloat (jget d f) = some n ∧ n.isNonFinite = true) →
      ∃ e, update_procedure actor db proc d = .error e ∧ e.status = 400) ∧
    (∀ (actor : Actor) (db : List Procedure) (newId : ℕ) (d : Payload),
      actor.tipo = "admin" →
      is_valid_string (jget d "nome") = true → is_valid_string (jget d "descricao") = true →
      (jget d "valor_plano").isNull = false → (jget d "valor_particular").isNull = false →
      db.any (fun p => p.nome = stripOf d "nome") = false →
      (pyFloat (jget d "valor_plano") = none ∨ pyFloat (jget d "valor_particular") = none) →
      create_procedure actor db newId d =
        .error ⟨400, "Valores de plano e particular devem ser números válidos"⟩) ∧
    (∀ (actor : Actor) (db : List Procedure) (newId : ℕ) (d : Payload) (np npt : PyFloat),
      actor.tipo = "admin" →
      is_valid_string (jget d "nome") = true → is_valid_string (jget d "descricao") = true →
      (jget d "valor_plano").isNull = false → (jget d "valor_particular").isNull = false →
      db.any (fun p => p.nome = stripOf d "nome") = false →
      pyFloat (jget d "valor_plano") = some np → pyFloat (jget d "valor_particular") = some npt →
      create_procedure actor db newId d =
        .ok { id := newId, nome := stripOf d "nome", descricao := stripOf d "descricao",
              valor_plano := np, valor_particular := npt }) := by
  refine ⟨?upd, ?crejects, ?caccepts⟩
  case upd =>
    intro actor db proc d f hf hadmin hk hbad
    cases hres : update_procedure actor db proc d with
    | error e => exact ⟨e, rfl, update_procedure_error_400 hadmin hres⟩
    | ok p' =>
      exfalso
      unfold update_procedure at hres
      rw [hadmin, if_neg (by simp)] at hres
      cases h1 : applyProcNome db proc d <;> simp only [h1] at hres
      · cases hres
      · rename_i p1
        cases h2 : applyProcDescricao p1 d <;> simp only [h2] at hres
        · cases hres
        · rename_i p2
          cases h3 : applyValorField p2 d "valor_plano" <;> simp only [h3] at hres
          · cases hres
          · rcases hf with rfl | rfl
            · exact applyValorField_not_ok_of_bad hk hbad _ h3
            · exact applyValorField_not_ok_of_bad hk hbad _ hres
  case crejects =>
    intro actor db newId d hadmin hnome hdesc hvp hvpt hdup hbad
    unfold create_procedure
    rw [hadmin, if_neg (by simp)]
    have h1 : (["nome", "descricao"].find? (fun f => !is_valid_string (jget d f))) = none := by
      rw [List.find?_eq_none]
      intro x hx
      simp only [List.mem_cons, List.not_mem_nil, or_false] at hx
      rcases hx with rfl | rfl <;> simp [hnome, hdesc]
    have h2 : (["valor_plano", "valor_particular"].find? (fun f => (jget d f).isNull)) = none := by
      rw [List.find?_eq_none]
      intro x hx
      simp only [List.mem_cons, List.not_mem_nil, or_false] at hx
      rcases hx with rfl | rfl <;> simp [hvp, hvpt]
    rw [h1, h2]
    simp only [hdup, Bool.false_eq_true, if_false]
    rcases hbad with hb | hb
    · simp only [hb]
    · simp only [hb]
      cases pyFloat (jget d "valor_plano") <;> rfl
  case caccepts =>
    intro actor db newId d np npt hadmin hnome hdesc hvp hvpt hdup hnp hnpt
    unfold create_procedure
    rw [hadmin, if_neg (by simp)]
    have h1 : (["nome", "descricao"].find? (fun f => !is_valid_string (jget d f))) = none := by
      rw [List.find?_eq_none]
      intro x hx
      simp only [List.mem_cons, List.not_mem_nil, or_false] at hx
      rcases hx with rfl | rfl <;> simp [hnome, hdesc]
    have h2 : (["valor_plano", "valor_particular"].find? (fun f => (jget d f).isNull)) = none := by
      rw [List.find?_eq_none]
      intro x hx
      simp only [List.mem_cons, List.not_mem_nil, or_false] at hx
      rcases hx with rfl | rfl <;> simp [hvp, hvpt]
    rw [h1, h2]
    simp only [hdup, Bool.false_eq_true, if_false, hnp, hnpt]

/-- C6 witness: the amended theorem applied concretely — an update
supplying `valor_plano = inf` fails with 400. -/
theorem C6_numeric_validation_witness :
    ∃ e, update_procedure ⟨1, "admin"⟩ [sampleProc] sampleProc
      [("valor_plano", .num .inf)] = .error e ∧ e.status = 400 :=
  C6_numeric_validation.1 ⟨1, "admin"⟩ [sampleProc] sampleProc
    [("valor_plano", .num .inf)] "valor_plano" (.inl rfl) rfl (by decide)
    (.inr ⟨.inf, by decide, by decide⟩)

/-! C7 — `nome` uniqueness re-check on Procedure update. -/

/-- C7 counterexample: supplying `" X"` for a procedure currently named
`"X"` — a value whose TRIMMED form equals the current name — fails with
the duplicate-name error (the raw comparison differs, so the branch is
entered, and the unguarded duplicate lookup matches the row itself),
contradicting the claim that a trimmed-equal `nome` never draws a
duplicate-name error. -/
theorem C7_counterexample :
    pyStrip " X" = sampleProc.nome ∧ (" X" : String) ≠ sampleProc.nome ∧
    update_procedure ⟨1, "admin"⟩ [sampleProc] sampleProc [("nome", .str " X")] =
      .error ⟨400, "Nome de procedimento já existe"⟩ :=
  ⟨by decide, by decide, by decide⟩

/-- C7 (amended): the uniqueness re-check is gated on the RAW payload
value differing from the current `nome` (`data['nome'] != proc.nome`,
untrimmed).  (1) When the raw value equals the current name, the update
never yields the duplicate-name error and leaves `nome` unchanged on
success.  (2) When the raw value differs but its trimmed form equals
the current (non-empty) name, the duplicate lookup matches the row
itself and the update fails with the duplicate-name error. -/
theorem C7_nome_recheck_raw_comparison :
    (∀ (actor : Actor) (db : List Procedure) (proc : Procedure) (d : Payload),
      jget d "nome" = .str proc.nome →
      ((∃ p', update_procedure actor db proc d = .ok p' ∧ p'.nome = proc.nome) ∨
       (∃ e, update_procedure actor db proc d = .error e ∧
         e.msg ≠ "Nome de procedimento já existe"))) ∧
    (∀ (actor : Actor) (db : List Procedure) (proc : Procedure) (d : Payload) (s : String),
      actor.tipo = "admin" → proc ∈ db → jget d "nome" = .str s → s ≠ proc.nome →
      pyStrip s = proc.nome → proc.nome ≠ "" →
      update_procedure actor db proc d =
        .error ⟨400, "Nome de procedimento já existe"⟩) := by
  constructor
  · intro actor db proc d hraw
    unfold update_procedure
    by_cases hadmin : actor.tipo ≠ "admin"
    · rw [if_pos hadmin]
      exact .inr ⟨_, rfl, by decide⟩
    · rw [if_neg hadmin]
      cases h2 : applyProcDescricao proc d with
      | error e2 =>
        refine .inr ⟨e2, ?_, ?_⟩
        · simp only [applyProcNome_raw_equal hraw, h2]
        · rw [applyProcDescricao_errors h2]; decide
      | ok p2 =>
        cases h3 : applyValorField p2 d "valor_plano" with
        | error e3 =>
          refine .inr ⟨e3, ?_, ?_⟩
          · simp only [applyProcNome_raw_equal hraw, h2, h3]
          · rcases applyValorField_errors h3 with h' | h' <;> (rw [h']; decide)
        | ok p3 =>
          cases h4 : applyValorField p3 d "valor_particular" with
          | error e4 =>
            refine .inr ⟨e4, ?_, ?_⟩
            · simp only [applyProcNome_raw_equal hraw, h2, h3, h4]
            · rcases applyValorField_errors h4 with h' | h' <;> (rw [h']; decide)
          | ok p4 =>
            refine .inl ⟨p4, ?_, ?_⟩
            · simp only [applyProcNome_raw_equal hraw, h2, h3, h4]
            · rw [applyValorField_ok_nome h4, applyValorField_ok_nome h3,
                applyProcDescricao_ok_nome h2]
  · intro actor db proc d s hadmin hmem hraw hne hstrip hnom
    have hk : hasKey d "nome" = true := jget_hasKey hraw
    have hstep : applyProcNome db proc d =
        .error ⟨400, "Nome de procedimento já existe"⟩ := by
      unfold applyProcNome
      rw [hraw]
      have hcond : (hasKey d "nome" && !(JVal.str s).eqStr proc.nome) = true := by
        simp [hk, JVal.eqStr, hne]
      rw [if_pos hcond]
      have hsn : stripOf d "nome" = proc.nome := by
        unfold stripOf; rw [hraw]; exact hstrip
      have hv : (!is_valid_string (JVal.str s)) = false := by
        simp [is_valid_string, hstrip, hnom]
      rw [hv]
      simp only [Bool.false_eq_true, if_false, hsn]
      rw [if_pos (List.any_eq_true.mpr ⟨proc, hmem, by simp⟩)]
    unfold update_procedure
    rw [hadmin, if_neg (by simp)]
    simp only [hstep]

/-- C7 witness: the amended theorem applied concretely — supplying the
exact current name does not produce a duplicate error. -/
theorem C7_nome_recheck_raw_comparison_witness :
    (∃ p', update_procedure ⟨1, "admin"⟩ [sampleProc] sampleProc [("nome", .str "X")] =
      .ok p' ∧ p'.nome = sampleProc.nome) ∨
    (∃ e, update_procedure ⟨1, "admin"⟩ [sampleProc] sampleProc [("nome", .str "X")] =
      .error e ∧ e.msg ≠ "Nome de procedimento já existe") :=
  C7_nome_recheck_raw_comparison.1 ⟨1, "admin"⟩ [sampleProc] sampleProc
    [("nome", .str "X")] rfl

/-! Stage lemmas for `update_patient`. -/

theorem applyPatientField_error_400 {db : List Patient} {p : Patient} {d : Payload}
    {f : String} {e : Err} (h : applyPatientField db p d f = .error e) : e.status = 400 := by
  simp only [applyPatientField] at h
  split at h
  · split at h
    · cases h; rfl
    · split at h
      · split at h
        · split at h
          · cases h; rfl
          · cases h
        · cases h
      · split at h
        · split at h
          · split at h
            · cases h; rfl
            · cases h
          · cases h
        · cases h
  · cases h

theorem applyPatientFields_error_400 {db : List Patient} {d : Payload} :
    ∀ (fs : List String) (p : Patient) (e : Err),
      applyPatientFields db p d fs = .error e → e.status = 400 := by
  intro fs
  induction fs with
  | nil => intro p e h; cases h
  | cons g gs ih =>
    intro p e h
    unfold applyPatientFields at h
    cases h1 : applyPatientField db p d g <;> simp only [h1] at h
    · cases h; exact applyPatientField_error_400 h1
    · exact ih _ _ h

theorem applyPatientFields_not_ok_of_invalid {db : List Patient} {d : Payload} {f : String}
    (hk : hasKey d f = true) (hbad : is_valid_string (jget d f) = false) :
    ∀ (fs : List String) (p p' : Patient), f ∈ fs →
      applyPatientFields db p d fs ≠ .ok p' := by
  intro fs
  induction fs with
  | nil => intro p p' hf; cases hf
  | cons g gs ih =>
    intro p p' hf h
    unfold applyPatientFields at h
    cases h1 : applyPatientField db p d g <;> simp only [h1] at h
    · cases h
    · rcases List.mem_cons.mp hf with rfl | htail
      · simp only [applyPatientField, hk, if_true, hbad, Bool.not_false] at h1
        cases h1
      · exact ih _ _ htail h

theorem applyDataNascimento_error_400 {p : Patient} {d : Payload} {e : Err}
    (h : applyDataNascimento p d = .error e) : e.status = 400 := by
  simp only [applyDataNascimento] at h
  split at h
  · cases h
  · split at h
    · cases h; rfl
    · split at h
      · split at h
        · cases h
        · cases h; rfl
      · cases h; rfl

theorem applyDataNascimento_skip_empty {p : Patient} {d : Payload}
    (hv : jget d "data_nascimento" = .str "") : applyDataNascimento p d = .ok p := by
  simp only [applyDataNascimento, hv]
  simp [JVal.truthy]

theorem applyDataNascimento_not_ok_of_ws {d : Payload} {s : String}
    (hv : jget d "data_nascimento" = .str s) (hne : s ≠ "") (hws : pyStrip s = "") :
    ∀ p p', applyDataNascimento p d ≠ .ok p' := by
  intro p p' h
  simp only [applyDataNascimento, hv] at h
  have ht : (JVal.str s).truthy = true := by simp [JVal.truthy, hne]
  have hval : is_valid_string (JVal.str s) = false := by simp [is_valid_string, hws]
  rw [ht, hval] at h
  simp only [Bool.not_true, Bool.false_eq_true, if_false, Bool.not_false, if_true] at h
  cases h

theorem update_patient_error_400 {today : Date} {db : List Patient} {p : Patient}
    {d : Payload} {e : Err} (h : update_patient today db p d = .error e) :
    e.status = 400 := by
  unfold update_patient at h
  cases h1 : applyPatientFields db p d patientStringFields <;> simp only [h1] at h
  · cases h; exact applyPatientFields_error_400 _ _ _ h1
  · rename_i p1
    cases h2 : applyDataNascimento p1 d <;> simp only [h2] at h
    · cases h; exact applyDataNascimento_error_400 h2
    · split at h
      · split at h
        · cases h; rfl
        · cases h
      · cases h

/-! C5 — empty-string handling on Patient update. -/

/-- A sample adult patient row. -/
def samplePatient : Patient :=
  { id := 1, cpf := .str "1", nome := .str "N", email := .str "e",
    telefone := .str "t", data_nascimento := ⟨1990, 1, 1⟩, estado := .str "E",
    cidade := .str "C", bairro := .str "B", cep := .str "c", rua := .str "r",
    numero := .str "n" }

/-- C5 counterexample: a payload carrying `data_nascimento` as the
EMPTY string is silently ignored — the update succeeds (200) with the
patient unchanged — instead of failing with InvalidArgument as the
claim requires for every listed field including `data_nascimento`. -/
theorem C5_counterexample :
    hasKey [("data_nascimento", JVal.str "")] "data_nascimento" = true ∧
    update_patient ⟨2025, 1, 1⟩ [samplePatient] samplePatient
      [("data_nascimento", .str "")] = .ok samplePatient :=
  ⟨by decide, rfl⟩

/-- C5 (amended): on Patient update, (1) each of the ten base string
fields present with an empty/whitespace/non-string value fails the
request with a 400 error (the pure model returns no updated row);
(2) a `data_nascimento` supplied as a whitespace-only but NON-empty
string also fails with 400; but (3) a `data_nascimento` supplied as the
empty string `""` is skipped by the truthiness gate: the step succeeds
leaving the patient unchanged. -/
theorem C5_update_empty_string_handling :
    (∀ (today : Date) (db : List Patient) (p : Patient) (d : Payload) (field : String),
      field ∈ patientStringFields → hasKey d field = true →
      is_valid_string (jget d field) = false →
      ∃ e, update_patient today db p d = .error e ∧ e.status = 400) ∧
    (∀ (today : Date) (db : List Patient) (p : Patient) (d : Payload) (s : String),
      jget d "data_nascimento" = .str s → s ≠ "" → pyStrip s = "" →
      ∃ e, update_patient today db p d = .error e ∧ e.status = 400) ∧
    (∀ (p : Patient) (d : Payload), jget d "data_nascimento" = .str "" →
      applyDataNascimento p d = .ok p) := by
  refine ⟨?fields, ?ws, ?skip⟩
  case fields =>
    intro today db p d field hf hk hbad
    cases hres : update_patient today db p d with
    | error e => exact ⟨e, rfl, update_patient_error_400 hres⟩
    | ok p' =>
      exfalso
      unfold update_patient at hres
      cases h1 : applyPatientFields db p d patientStringFields <;> simp only [h1] at hres
      · cases hres
      · exact applyPatientFields_not_ok_of_invalid hk hbad _ _ _ hf h1
  case ws =>
    intro today db p d s hv hne hws
    cases hres : update_patient today db p d with
    | error e => exact ⟨e, rfl, update_patient_error_400 hres⟩
    | ok p' =>
      exfalso
      unfold update_patient at hres
      cases h1 : applyPatientFields db p d patientStringFields <;> simp only [h1] at hres
      · cases hres
      · rename_i p1
        cases h2 : applyDataNascimento p1 d <;> simp only [h2] at hres
        · cases hres
        · exact applyDataNascimento_not_ok_of_ws hv hne hws _ _ h2
  case skip =>
    intro p d hv
    exact applyDataNascimento_skip_empty hv

/-- C5 witness: the amended theorem applied concretely — an empty
`nome` in the payload fails the update with 400. -/
theorem C5_update_empty_string_handling_witness :
    ∃ e, update_patient ⟨2025, 1, 1⟩ [samplePatient] samplePatient
      [("nome", .str " ")] = .error e ∧ e.status = 400 :=
  C5_update_empty_string_handling.1 ⟨2025, 1, 1⟩ [samplePatient] samplePatient
    [("nome", .str " ")] "nome" (by decide) (by decide) (by decide)

/-! C8 — GET /appointments/between. -/

theorem fromisoformat_ne_empty {t : String} {dt : DateTime}
    (h : fromisoformat t = some dt) : t ≠ "" := by
  intro heq
  rw [heq] at h
  rw [show fromisoformat "" = none from rfl] at h
  cases h

/-- A sample appointment at 2024-01-01 10:00. -/
def sampleAp : Appointment :=
  { id := 1, data_hora := ⟨2024, 1, 1, 10, 0, 0⟩, tipo := "particular",
    numero_carteira := none, valor_total := .finite 50, usuario_id := 1, paciente_id := 1 }

/-- C8: (1) a missing or empty/whitespace `start` or `end` bound fails
with 400; (2) with both bounds parsing (date-only or date-time ISO),
the result is exactly the appointments with
`start ≤ data_hora ≤ end` — both bounds inclusive, the `end` bound
promoted to 23:59:59 of the same day exactly when the (stripped) string
has the 10-character date-only form — ordered by `data_hora`
ascending. -/
theorem C8_list_between_bounds :
    (∀ (db : List Appointment) (sa ea : Option String),
      (is_valid_string (argJVal sa) && is_valid_string (argJVal ea)) = false →
      list_between_dates db sa ea =
        .error ⟨400, "Parâmetros start e end obrigatórios e não podem ser vazios"⟩) ∧
    (∀ (db : List Appointment) (sa ea : String) (sdt edt : DateTime),
      fromisoformat (pyStrip sa) = some sdt → fromisoformat (pyStrip ea) = some edt →
      ∃ r, list_between_dates db (some sa) (some ea) = .ok r ∧
        r.Perm (db.filter (fun a => decide (sdt.key ≤ a.data_hora.key ∧
          a.data_hora.key ≤ (if (pyStrip ea).length = 10
            then ({ edt with hour := 23, minute := 59, second := 59 } : DateTime)
            else edt).key))) ∧
        List.Sorted apDataHoraLe r) := by
  constructor
  · intro db sa ea h
    have h' : (!is_valid_string (argJVal sa) || !is_valid_string (argJVal ea)) = true := by
      rw [← Bool.not_and, h]
      rfl
    simp [list_between_dates, h']
  · intro db sa ea sdt edt hs he
    have hsne : pyStrip sa ≠ "" := fromisoformat_ne_empty hs
    have hene : pyStrip ea ≠ "" := fromisoformat_ne_empty he
    have hsv : is_valid_string (argJVal (some sa)) = true := by
      simp [argJVal, is_valid_string, hsne]
    have hev : is_valid_string (argJVal (some ea)) = true := by
      simp [argJVal, is_valid_string, hene]
    have hstrips : stripVal (argJVal (some sa)) = pyStrip sa := rfl
    have hstripe : stripVal (argJVal (some ea)) = pyStrip ea := rfl
    refine ⟨_, ?_, List.perm_insertionSort _ _, List.sorted_insertionSort _ _⟩
    simp only [list_between_dates, hsv, hev, hstrips, hstripe, hs, he,
      Bool.not_true, Bool.or_self, Bool.false_eq_true, if_false]

/-- C8 witness: scenario E — a date-only query on both bounds returns
the appointment at 10:00 of that day (end promoted to 23:59:59). -/
theorem C8_list_between_bounds_witness :
    ∃ r, list_between_dates [sampleAp] (some "2024-01-01") (some "2024-01-01") = .ok r ∧
      r.Perm ([sampleAp].filter (fun a =>
        decide ((DateTime.mk 2024 1 1 0 0 0).key ≤ a.data_hora.key ∧
          a.data_hora.key ≤ (if (pyStrip "2024-01-01").length = 10
            then ({ DateTime.mk 2024 1 1 0 0 0 with
                    hour := 23, minute := 59, second := 59 } : DateTime)
            else DateTime.mk 2024 1 1 0 0 0).key))) ∧
      List.Sorted apDataHoraLe r :=
  C8_list_between_bounds.2 [sampleAp] "2024-01-01" "2024-01-01"
    ⟨2024, 1, 1, 0, 0, 0⟩ ⟨2024, 1, 1, 0, 0, 0⟩ (by decide) (by decide)

/-! Stage lemmas for `update_appointment`. -/

theorem applyApDataHora_shape {ap ap1 : Appointment} {d : Payload}
    (h : applyApDataHora ap d = .ok ap1) :
    ap1 = ap ∨ ∃ t, ap1 = { ap with data_hora := t } := by
  simp only [applyApDataHora] at h
  split at h
  · exact .inl (Except.ok.inj h).symm
  · split at h
    · cases h
    · split at h
      · split at h
        · exact .inr ⟨_, (Except.ok.inj h).symm⟩
        · cases h
      · cases h

theorem applyApPaciente_shape {pids : List ℕ} {ap ap1 : Appointment} {d : Payload}
    (h : applyApPaciente pids ap d = .ok ap1) :
    ap1 = ap ∨ ∃ x, ap1 = { ap with paciente_id := x } := by
  simp only [applyApPaciente] at h
  split at h
  · exact .inl (Except.ok.inj h).symm
  · split at h
    · cases h
    · exact .inr ⟨_, (Except.ok.inj h).symm⟩

theorem applyApTipo_shape {ap ap1 : Appointment} {d : Payload}
    (h : applyApTipo ap d = .ok ap1) :
    ap1 = ap ∨ ∃ s, ap1 = { ap with tipo := s } := by
  simp only [applyApTipo] at h
  split at h
  · exact .inl (Except.ok.inj h).symm
  · split at h
    · cases h
    · exact .inr ⟨_, (Except.ok.inj h).symm⟩

theorem applyApTipo_skip {ap : Appointment} {d : Payload}
    (h : hasKey d "tipo" = false) : applyApTipo ap d = .ok ap := by
  simp only [applyApTipo, jget_of_not_hasKey h]
  simp [JVal.truthy]

theorem applyApCarteira_shape (ap : Appointment) (d : Payload) :
    applyApCarteira ap d = ap ∨ ∃ o, applyApCarteira ap d = { ap with numero_carteira := o } := by
  simp only [applyApCarteira]
  split
  · exact .inl rfl
  · split
    · exact .inr ⟨none, rfl⟩
    · exact .inr ⟨_, rfl⟩

theorem applyApCarteira_clears {ap : Appointment} {d : Payload}
    (hn : (jget d "numero_carteira").isNull = false)
    (hv : is_valid_string (jget d "numero_carteira") = false) :
    applyApCarteira ap d = { ap with numero_carteira := none } := by
  simp only [applyApCarteira]
  rw [if_neg (by simp [hn]), if_pos (by simp [hv])]

theorem resolveProcs_mem {procs : List Procedure} :
    ∀ {l : List JVal} {objs : List Procedure}, resolveProcs procs l = .ok objs →
      ∀ p ∈ objs, p ∈ procs := by
  intro l
  induction l with
  | nil =>
    intro objs h p hp
    cases h
    cases hp
  | cons v rest ih =>
    intro objs h p hp
    simp only [resolveProcs] at h
    cases hpi : pyInt v <;> simp only [hpi] at h
    · cases h
    · rename_i pid
      cases hf : procs.find? (fun q => (q.id : ℤ) = pid) <;> simp only [hf] at h
      · cases h
      · rename_i q
        cases hr : resolveProcs procs rest <;> simp only [hr] at h
        · cases h
        · cases h
          rcases List.mem_cons.mp hp with rfl | hp2
          · exact List.mem_of_find?_eq_some hf
          · exact ih hr p hp2

theorem applyApProcs_shape {procs : List Procedure} {links links1 : List AppointmentProcedure}
    {ap : Appointment} {d : Payload} {newProcs : Option (List Procedure)}
    (h : applyApProcs procs links ap d = .ok (links1, newProcs)) :
    (newProcs = none ∧ links1 = links ∧ jget d "procedimentos" = .null) ∨
    (∃ objs, newProcs = some objs ∧ (jget d "procedimentos").isNull = false ∧
      links1 = links.filter (fun lk => lk.atendimento_id ≠ ap.id) ++
        objs.map (fun p => ({ atendimento_id := ap.id, procedimento_id := p.id } :
          AppointmentProcedure)) ∧
      (∀ p ∈ objs, p ∈ procs)) := by
  simp only [applyApProcs] at h
  cases hj : jget d "procedimentos" <;> simp only [hj] at h
  · cases h
  · cases h
  · cases h
  · rename_i l
    split at h
    · cases h
    · cases hr : resolveProcs procs l <;> simp only [hr] at h
      · cases h
      · rename_i objs
        have hinj := Except.ok.inj h
        simp only [Prod.mk.injEq] at hinj
        exact .inr ⟨objs, hinj.2.symm, by simp [JVal.isNull], hinj.1.symm, resolveProcs_mem hr⟩
  · have hinj := Except.ok.inj h
    simp only [Prod.mk.injEq] at hinj
    exact .inl ⟨hinj.2.symm, hinj.1.symm, rfl⟩

theorem applyAppointmentUpdates_ok {pids : List ℕ} {procs : List Procedure}
    {links : List AppointmentProcedure} {ap : Appointment} {d : Payload}
    {ap1 : Appointment} {links1 : List AppointmentProcedure}
    {newProcs : Option (List Procedure)}
    (h : applyAppointmentUpdates pids procs links ap d = .ok (ap1, links1, newProcs)) :
    ap1.id = ap.id ∧ ap1.valor_total = ap.valor_total ∧
    (jget d "procedimentos" = .null → newProcs = none ∧ links1 = links) ∧
    (∀ objs, newProcs = some objs →
      links1 = links.filter (fun lk => lk.atendimento_id ≠ ap.id) ++
        objs.map (fun p => ({ atendimento_id := ap.id, procedimento_id := p.id } :
          AppointmentProcedure)) ∧
      (∀ p ∈ objs, p ∈ procs)) ∧
    (newProcs = none → links1 = links) ∧
    (hasKey d "tipo" = false → ap1.tipo = ap.tipo) ∧
    ((jget d "numero_carteira").isNull = false →
      is_valid_string (jget d "numero_carteira") = false →
      ap1.numero_carteira = none) := by
  simp only [applyAppointmentUpdates] at h
  cases h1 : applyApDataHora ap d <;> simp only [h1] at h
  · cases h
  · rename_i a1
    cases h2 : applyApPaciente pids a1 d <;> simp only [h2] at h
    · cases h
    · rename_i a2
      cases h3 : applyApProcs procs links a2 d <;> simp only [h3] at h
      · cases h
      · rename_i pr
        obtain ⟨links1x, newProcsx⟩ := pr
        cases h4 : applyApTipo a2 d <;> simp only [h4] at h
        · cases h
        · rename_i a3
          have hinj := Except.ok.inj h
          simp only [Prod.mk.injEq] at hinj
          obtain ⟨hap1, hlinks1, hnp⟩ := hinj
          subst hap1
          subst hlinks1
          subst hnp
          have e1 : a1.id = ap.id ∧ a1.tipo = ap.tipo ∧ a1.valor_total = ap.valor_total ∧
              a1.numero_carteira = ap.numero_carteira := by
            rcases applyApDataHora_shape h1 with rfl | ⟨t, rfl⟩ <;> exact ⟨rfl, rfl, rfl, rfl⟩
          have e2 : a2.id = a1.id ∧ a2.tipo = a1.tipo ∧ a2.valor_total = a1.valor_total ∧
              a2.numero_carteira = a1.numero_carteira := by
            rcases applyApPaciente_shape h2 with rfl | ⟨x, rfl⟩ <;> exact ⟨rfl, rfl, rfl, rfl⟩
          have e3 : a3.id = a2.id ∧ a3.valor_total = a2.valor_total ∧
              a3.numero_carteira = a2.numero_carteira := by
            rcases applyApTipo_shape h4 with rfl | ⟨s, rfl⟩ <;> exact ⟨rfl, rfl, rfl⟩
          have e4 : (applyApCarteira a3 d).id = a3.id ∧
              (applyApCarteira a3 d).tipo = a3.tipo ∧
              (applyApCarteira a3 d).valor_total = a3.valor_total := by
            rcases applyApCarteira_shape a3 d with heq | ⟨o, heq⟩ <;> rw [heq] <;>
              exact ⟨rfl, rfl, rfl⟩
          have hid : (applyApCarteira a3 d).id = ap.id := by
            rw [e4.1, e3.1, e2.1, e1.1]
          have ha2id : a2.id = ap.id := by rw [e2.1, e1.1]
          refine ⟨hid, by rw [e4.2.2, e3.2.1, e2.2.2.1, e1.2.2.1], ?_, ?_, ?_, ?_, ?_⟩
          · intro hnull
            rcases applyApProcs_shape h3 with ⟨hn, hl, _⟩ | ⟨objs, hs, hnn, _, _⟩
            · exact ⟨hn, hl⟩
            · rw [hnull] at hnn
              simp [JVal.isNull] at hnn
          · intro objs hobjs
            rcases applyApProcs_shape h3 with ⟨hn, _, _⟩ | ⟨objs2, hs, _, hl, hm⟩
            · rw [hobjs] at hn; cases hn
            · rw [hobjs] at hs
              cases hs
              rw [ha2id] at hl
              exact ⟨hl, hm⟩
          · intro hnone
            rcases applyApProcs_shape h3 with ⟨_, hl, _⟩ | ⟨objs2, hs, _, _, _⟩
            · exact hl
            · rw [hnone] at hs; cases hs
          · intro hkt
            have h4s : applyApTipo a2 d = .ok a2 := applyApTipo_skip hkt
            rw [h4] at h4s
            have : a3 = a2 := Except.ok.inj h4s
            subst this
            have hc : (applyApCarteira a3 d).tipo = a3.tipo := e4.2.1
            rw [hc, e2.2.1, e1.2.1]
          · intro hn hv
            rw [applyApCarteira_clears hn hv]

theorem applyApProcs_replaced {procs : List Procedure} {links links1 : List AppointmentProcedure}
    {ap : Appointment} {d : Payload} {newProcs : Option (List Procedure)}
    (h : applyApProcs procs links ap d = .ok (links1, newProcs))
    (hnn : (jget d "procedimentos").isNull = false) :
    ∃ l objs, jget d "procedimentos" = .list l ∧ resolveProcs procs l = .ok objs ∧
      newProcs = some objs ∧
      links1 = links.filter (fun lk => lk.atendimento_id ≠ ap.id) ++
        objs.map (fun p => ({ atendimento_id := ap.id, procedimento_id := p.id } :
          AppointmentProcedure)) := by
  simp only [applyApProcs] at h
  cases hj : jget d "procedimentos" <;> simp only [hj] at h
  · cases h
  · cases h
  · cases h
  · rename_i l
    split at h
    · cases h
    · cases hr : resolveProcs procs l <;> simp only [hr] at h
      · cases h
      · rename_i objs
        have hinj := Except.ok.inj h
        simp only [Prod.mk.injEq] at hinj
        exact ⟨l, objs, rfl, hr, hinj.2.symm, hinj.1.symm⟩
  · rw [hj] at hnn
    simp [JVal.isNull] at hnn

theorem applyAppointmentUpdates_replaced {pids : List ℕ} {procs : List Procedure}
    {links : List AppointmentProcedure} {ap : Appointment} {d : Payload}
    {ap1 : Appointment} {links1 : List AppointmentProcedure}
    {newProcs : Option (List Procedure)}
    (h : applyAppointmentUpdates pids procs links ap d = .ok (ap1, links1, newProcs))
    (hnn : (jget d "procedimentos").isNull = false) :
    ∃ l objs, jget d "procedimentos" = .list l ∧ resolveProcs procs l = .ok objs ∧
      newProcs = some objs ∧
      links1 = links.filter (fun lk => lk.atendimento_id ≠ ap.id) ++
        objs.map (fun p => ({ atendimento_id := ap.id, procedimento_id := p.id } :
          AppointmentProcedure)) := by
  simp only [applyAppointmentUpdates] at h
  cases h1 : applyApDataHora ap d <;> simp only [h1] at h
  · cases h
  · rename_i a1
    cases h2 : applyApPaciente pids a1 d <;> simp only [h2] at h
    · cases h
    · rename_i a2
      cases h3 : applyApProcs procs links a2 d <;> simp only [h3] at h
      · cases h
      · rename_i pr
        obtain ⟨links1x, newProcsx⟩ := pr
        cases h4 : applyApTipo a2 d <;> simp only [h4] at h
        · cases h
        · rename_i a3
          have hinj := Except.ok.inj h
          simp only [Prod.mk.injEq] at hinj
          obtain ⟨hap1, hlinks1, hnp⟩ := hinj
          have ha2id : a2.id = ap.id := by
            have e1 : a1.id = ap.id := by
              rcases applyApDataHora_shape h1 with rfl | ⟨t, rfl⟩ <;> rfl
            rcases applyApPaciente_shape h2 with rfl | ⟨x, rfl⟩ <;> exact e1
          obtain ⟨l, objs, hj, hr, hs, hl⟩ := applyApProcs_replaced h3 hnn
          rw [ha2id] at hl
          refine ⟨l, objs, hj, hr, ?_, ?_⟩
          · rw [← hnp]; exact hs
          · rw [← hlinks1]; exact hl

theorem update_appointment_ok_inner {actor : Actor} {pids : List ℕ} {procs : List Procedure}
    {links : List AppointmentProcedure} {ap : Appointment} {d : Payload}
    {ap' : Appointment} {links' : List AppointmentProcedure}
    (h : update_appointment actor pids procs links ap d = .ok (ap', links')) :
    ∃ ap1 links1 newProcs,
      applyAppointmentUpdates pids procs links ap d = .ok (ap1, links1, newProcs) ∧
      links' = links1 ∧
      ((newProcs.isSome || hasKey d "tipo") = true →
        ap' = { ap1 with valor_total :=
          calc_valor_total (newProcs.getD (linkedProcedures ap1.id links1 procs)) ap1.tipo }) ∧
      ((newProcs.isSome || hasKey d "tipo") = false → ap' = ap1) := by
  unfold update_appointment at h
  split at h
  · cases h
  · cases hu : applyAppointmentUpdates pids procs links ap d <;> simp only [hu] at h
    · cases h
    · rename_i tr
      obtain ⟨ap1, links1, newProcs⟩ := tr
      refine ⟨ap1, links1, newProcs, rfl, ?_⟩
      split at h
      · cases h
      · split at h
        · rename_i hcond
          have hinj := Except.ok.inj h
          simp only [Prod.mk.injEq] at hinj
          exact ⟨hinj.2.symm, fun _ => hinj.1.symm,
            fun hc => absurd hcond (by simp [hc])⟩
        · rename_i hcond
          have hinj := Except.ok.inj h
          simp only [Prod.mk.injEq] at hinj
          exact ⟨hinj.2.symm, fun hc => absurd hc hcond, fun _ => hinj.1.symm⟩

theorem update_appointment_plano_recheck {actor : Actor} {pids : List ℕ}
    {procs : List Procedure} {links : List AppointmentProcedure} {ap : Appointment}
    {d : Payload} {ap1 : Appointment} {links1 : List AppointmentProcedure}
    {newProcs : Option (List Procedure)}
    (hauth : actor.tipo = "admin" ∨ actor.id = ap.usuario_id)
    (hu : applyAppointmentUpdates pids procs links ap d = .ok (ap1, links1, newProcs))
    (hp : ap1.tipo = "plano") (hnc : pyFalsyOptStr ap1.numero_carteira = true) :
    update_appointment actor pids procs links ap d =
      .error ⟨400, "numero_carteira obrigatório para tipo plano"⟩ := by
  unfold update_appointment
  rw [if_neg (by rcases hauth with h | h <;> simp [h])]
  simp only [hu]
  rw [if_pos (by simp [hp, hnc])]

theorem find?_id_eq_self {procs : List Procedure}
    (hnd : (procs.map Procedure.id).Nodup) {p : Procedure} (hp : p ∈ procs) :
    procs.find? (fun q => q.id = p.id) = some p := by
  induction procs with
  | nil => cases hp
  | cons q rest ih =>
    rw [List.map_cons, List.nodup_cons] at hnd
    rcases List.mem_cons.mp hp with rfl | hp2
    · simp [List.find?]
    · have hne : q.id ≠ p.id := fun heq =>
        hnd.1 (heq ▸ List.mem_map_of_mem Procedure.id hp2)
      rw [List.find?]
      simp only [decide_eq_false hne]
      exact ih hnd.2 hp2

theorem filterMap_find_self {procs : List Procedure}
    (hnd : (procs.map Procedure.id).Nodup) :
    ∀ (objs : List Procedure), (∀ p ∈ objs, p ∈ procs) →
      objs.filterMap (fun p => procs.find? (fun q => q.id = p.id)) = objs := by
  intro objs
  induction objs with
  | nil => intro _; rfl
  | cons p rest ih =>
    intro hmem
    rw [List.filterMap_cons,
      find?_id_eq_self hnd (hmem p (List.mem_cons_self p rest)),
      ih (fun q hq => hmem q (List.mem_cons_of_mem p hq))]

theorem linkedProcedures_fresh_append {apId : ℕ} {objs procs : List Procedure}
    {links : List AppointmentProcedure}
    (hnd : (procs.map Procedure.id).Nodup)
    (hmem : ∀ p ∈ objs, p ∈ procs)
    (hfresh : ∀ lk ∈ links, lk.atendimento_id ≠ apId) :
    linkedProcedures apId
      (links ++ objs.map (fun p => ({ atendimento_id := apId, procedimento_id := p.id } :
        AppointmentProcedure))) procs = objs := by
  unfold linkedProcedures
  rw [List.filter_append]
  have h1 : links.filter (fun lk => lk.atendimento_id = apId) = [] := by
    rw [List.filter_eq_nil_iff]
    intro lk hlk
    simp [hfresh lk hlk]
  have h2 : (objs.map (fun p => ({ atendimento_id := apId, procedimento_id := p.id } :
      AppointmentProcedure))).filter (fun lk => lk.atendimento_id = apId) =
      objs.map (fun p => ({ atendimento_id := apId, procedimento_id := p.id } :
        AppointmentProcedure)) := by
    rw [List.filter_eq_self]
    intro a ha
    rcases List.mem_map.mp ha with ⟨p, _, rfl⟩
    simp
  rw [h1, h2, List.nil_append, List.filterMap_map]
  have := filterMap_find_self hnd objs hmem
  simpa [Function.comp_def] using this

theorem create_appointment_ok_shape {actor : Actor} {pids : List ℕ} {procs : List Procedure}
    {newId : ℕ} {d : Payload} {ap : Appointment} {newLinks : List AppointmentProcedure}
    (h : create_appointment actor pids procs newId d = .ok (ap, newLinks)) :
    ∃ objs, (∀ p ∈ objs, p ∈ procs) ∧ ap.id = newId ∧
      ap.valor_total = calc_valor_total objs ap.tipo ∧
      newLinks = objs.map (fun p => ({ atendimento_id := newId, procedimento_id := p.id } :
        AppointmentProcedure)) := by
  simp only [create_appointment] at h
  split at h
  · cases h
  · split at h
    · cases h
    · split at h
      · cases h
      · rename_i dh hdh
        split at h
        · cases h
        · rename_i pid hpid
          split at h
          · rename_i l hl
            split at h
            · cases h
            · cases hr : resolveProcs procs l <;> simp only [hr] at h
              · cases h
              · rename_i objs
                split at h
                · cases h
                · rename_i nc hnc
                  have hinj := Except.ok.inj h
                  simp only [Prod.mk.injEq] at hinj
                  obtain ⟨hap, hlk⟩ := hinj
                  refine ⟨objs, resolveProcs_mem hr, ?_, ?_, hlk.symm⟩
                  · rw [← hap]
                  · rw [← hap]
          · cases h

/-! C3 — when `valor_total` is recomputed on Appointment update. -/

/-- C3: `valor_total` is recomputed exactly when the payload replaced
the procedure set or contained the `tipo` key: (a) with neither,
`valor_total` and the links are unchanged; (b) with `tipo` present but
no replacement, the links stay and `valor_total` is recomputed from the
appointment's CURRENT linked procedures under the post-update `tipo`;
(c) with the procedure set replaced (`procedimentos` present), every
successful update resolves the supplied list, replaces the
appointment's links with exactly the resolved set, and recomputes
`valor_total` from that NEW set under the post-update `tipo` — whether
or not the payload also contained `tipo`; (d) scenario D — an
authorized update changing only `tipo` to 'plano' on an appointment
holding a non-empty `numero_carteira` leaves the links unchanged and
sets `valor_total` to the plano-price sum of the currently linked
procedures. -/
theorem C3_update_recompute_condition :
    (∀ (actor : Actor) (pids : List ℕ) (procs : List Procedure)
       (links : List AppointmentProcedure) (ap : Appointment) (d : Payload)
       (ap' : Appointment) (links' : List AppointmentProcedure),
      update_appointment actor pids procs links ap d = .ok (ap', links') →
      jget d "procedimentos" = .null → hasKey d "tipo" = false →
      ap'.valor_total = ap.valor_total ∧ links' = links) ∧
    (∀ (actor : Actor) (pids : List ℕ) (procs : List Procedure)
       (links : List AppointmentProcedure) (ap : Appointment) (d : Payload)
       (ap' : Appointment) (links' : List AppointmentProcedure),
      update_appointment actor pids procs links ap d = .ok (ap', links') →
      jget d "procedimentos" = .null → hasKey d "tipo" = true →
      links' = links ∧
      ap'.valor_total = calc_valor_total (linkedProcedures ap.id links procs) ap'.tipo) ∧
    (∀ (actor : Actor) (pids : List ℕ) (procs : List Procedure)
       (links : List AppointmentProcedure) (ap : Appointment) (d : Payload)
       (ap' : Appointment) (links' : List AppointmentProcedure),
      update_appointment actor pids procs links ap d = .ok (ap', links') →
      (jget d "procedimentos").isNull = false →
      ∃ l objs, jget d "procedimentos" = .list l ∧ resolveProcs procs l = .ok objs ∧
        links' = links.filter (fun lk => lk.atendimento_id ≠ ap.id) ++
          objs.map (fun p => ({ atendimento_id := ap.id, procedimento_id := p.id } :
            AppointmentProcedure)) ∧
        ap'.valor_total = calc_valor_total objs ap'.tipo) ∧
    (∀ (actor : Actor) (pids : List ℕ) (procs : List Procedure)
       (links : List AppointmentProcedure) (ap : Appointment) (s : String),
      (actor.tipo = "admin" ∨ actor.id = ap.usuario_id) →
      ap.numero_carteira = some s → s ≠ "" →
      update_appointment actor pids procs links ap [("tipo", .str "plano")] =
        .ok ({ ap with
                tipo := "plano",
                valor_total :=
                  calc_valor_total (linkedProcedures ap.id links procs) "plano" },
             links)) := by
  refine ⟨?nop, ?tipoOnly, ?replaced, ?scenarioD⟩
  case nop =>
    intro actor pids procs links ap d ap' links' h hnull hkt
    obtain ⟨ap1, links1, newProcs, hu, hl', hthen, helse⟩ := update_appointment_ok_inner h
    obtain ⟨hid, hval, hnullf, hsome, hnonef, htipof, hcf⟩ := applyAppointmentUpdates_ok hu
    obtain ⟨hnp, hl1⟩ := hnullf hnull
    have hap' := helse (by simp [hnp, hkt])
    subst hap'
    exact ⟨hval, by rw [hl', hl1]⟩
  case tipoOnly =>
    intro actor pids procs links ap d ap' links' h hnull hkt
    obtain ⟨ap1, links1, newProcs, hu, hl', hthen, helse⟩ := update_appointment_ok_inner h
    obtain ⟨hid, hval, hnullf, hsome, hnonef, htipof, hcf⟩ := applyAppointmentUpdates_ok hu
    obtain ⟨hnp, hl1⟩ := hnullf hnull
    have hap' := hthen (by simp [hkt])
    subst hap'
    refine ⟨by rw [hl', hl1], ?_⟩
    rw [hnp]
    simp only [Option.getD_none]
    rw [hl1, hid]
  case replaced =>
    intro actor pids procs links ap d ap' links' h hnn
    obtain ⟨ap1, links1, newProcs, hu, hl', hthen, helse⟩ := update_appointment_ok_inner h
    obtain ⟨l, objs, hj, hr, hnp, hl1⟩ := applyAppointmentUpdates_replaced hu hnn
    have hap' := hthen (by simp [hnp])
    subst hap'
    refine ⟨l, objs, hj, hr, by rw [hl', hl1], ?_⟩
    rw [hnp]
    rfl
  case scenarioD =>
    intro actor pids procs links ap s hauth hnc hs
    have h1 : applyAppointmentUpdates pids procs links ap [("tipo", JVal.str "plano")] =
        .ok ({ ap with tipo := "plano" }, links, none) := rfl
    unfold update_appointment
    rw [if_neg (by rcases hauth with h | h <;> simp [h])]
    simp only [h1]
    rw [if_neg (by simp [pyFalsyOptStr, hnc, hs])]
    rw [if_pos (by decide)]
    rfl

/-- C3 witness: a procedure-set replacement at concrete data (conjunct
(c), with the links replaced and `valor_total` recomputed from the new
set), and scenario D at concrete data (conjunct (d)). -/
theorem C3_update_recompute_condition_witness :
    (∃ l objs,
      jget [("procedimentos", JVal.list [.str "1"])] "procedimentos" = .list l ∧
      resolveProcs [sampleProc] l = .ok objs ∧
      ([⟨1, 1⟩] : List AppointmentProcedure) =
        ([⟨1, 1⟩] : List AppointmentProcedure).filter
          (fun lk => lk.atendimento_id ≠ sampleAp.id) ++
          objs.map (fun p => ({ atendimento_id := sampleAp.id, procedimento_id := p.id } :
            AppointmentProcedure)) ∧
      ({ sampleAp with valor_total := calc_valor_total [sampleProc] "particular" } :
          Appointment).valor_total =
        calc_valor_total objs
          ({ sampleAp with valor_total := calc_valor_total [sampleProc] "particular" } :
            Appointment).tipo) ∧
    update_appointment ⟨1, "default"⟩ [] [sampleProc] [⟨1, 1⟩]
      { sampleAp with numero_carteira := some "W" } [("tipo", .str "plano")] =
      .ok ({ { sampleAp with numero_carteira := some "W" } with
              tipo := "plano",
              valor_total :=
                calc_valor_total
                  (linkedProcedures ({ sampleAp with numero_carteira := some "W" } :
                    Appointment).id [⟨1, 1⟩] [sampleProc]) "plano" }, [⟨1, 1⟩]) :=
  ⟨C3_update_recompute_condition.2.2.1 ⟨1, "default"⟩ [] [sampleProc] [⟨1, 1⟩]
      sampleAp [("procedimentos", JVal.list [.str "1"])]
      { sampleAp with valor_total := calc_valor_total [sampleProc] "particular" }
      [⟨1, 1⟩] rfl rfl,
   C3_update_recompute_condition.2.2.2 ⟨1, "default"⟩ [] [sampleProc] [⟨1, 1⟩]
      { sampleAp with numero_carteira := some "W" } "W" (.inr rfl) rfl (by decide)⟩

/-! C4 — `numero_carteira` semantics on Appointment update. -/

/-- C4: (1) a `numero_carteira` supplied as an empty/whitespace (or
non-string) value CLEARS the stored column to null instead of erroring;
(2) consequently a successful update with such a payload ends with
`numero_carteira = null`; (3) after the field-application phase, if the
resulting `tipo` is 'plano' with an empty/null `numero_carteira`, the
update fails with 400 — for EVERY payload whose field phase succeeded,
regardless of which keys it contained; (4) create, by contrast, rejects
an empty/missing `numero_carteira` outright (400) when `tipo` is
'plano'. -/
theorem C4_carteira_clear_and_recheck :
    (∀ (ap : Appointment) (d : Payload),
      (jget d "numero_carteira").isNull = false →
      is_valid_string (jget d "numero_carteira") = false →
      applyApCarteira ap d = { ap with numero_carteira := none }) ∧
    (∀ (actor : Actor) (pids : List ℕ) (procs : List Procedure)
       (links : List AppointmentProcedure) (ap : Appointment) (d : Payload)
       (ap' : Appointment) (links' : List AppointmentProcedure),
      update_appointment actor pids procs links ap d = .ok (ap', links') →
      (jget d "numero_carteira").isNull = false →
      is_valid_string (jget d "numero_carteira") = false →
      ap'.numero_carteira = none) ∧
    (∀ (actor : Actor) (pids : List ℕ) (procs : List Procedure)
       (links : List AppointmentProcedure) (ap : Appointment) (d : Payload)
       (ap1 : Appointment) (links1 : List AppointmentProcedure)
       (newProcs : Option (List Procedure)),
      (actor.tipo = "admin" ∨ actor.id = ap.usuario_id) →
      applyAppointmentUpdates pids procs links ap d = .ok (ap1, links1, newProcs) →
      ap1.tipo = "plano" → pyFalsyOptStr ap1.numero_carteira = true →
      update_appointment actor pids procs links ap d =
        .error ⟨400, "numero_carteira obrigatório para tipo plano"⟩) ∧
    (∀ (actor : Actor) (pids : List ℕ) (procs : List Procedure) (newId : ℕ) (d : Payload)
       (s : String) (dh : DateTime) (pid : ℕ) (l : List JVal) (objs : List Procedure),
      jget d "tipo" = .str "plano" →
      jget d "data_hora" = .str s → fromisoformat s = some dh →
      findPatientId pids (jget d "paciente_id") = some pid →
      jget d "procedimentos" = .list l → l.isEmpty = false →
      resolveProcs procs l = .ok objs →
      is_valid_string (jget d "numero_carteira") = false →
      create_appointment actor pids procs newId d =
        .error ⟨400, "numero_carteira obrigatório e não pode ser vazio para tipo plano"⟩) := by
  refine ⟨?clear, ?clearEnd, ?recheck, ?createRejects⟩
  case clear =>
    intro ap d hn hv
    exact applyApCarteira_clears hn hv
  case clearEnd =>
    intro actor pids procs links ap d ap' links' h hn hv
    obtain ⟨ap1, links1, newProcs, hu, hl', hthen, helse⟩ := update_appointment_ok_inner h
    obtain ⟨_, _, _, _, _, _, hcf⟩ := applyAppointmentUpdates_ok hu
    have hnc1 : ap1.numero_carteira = none := hcf hn hv
    cases hb : (newProcs.isSome || hasKey d "tipo") with
    | true => rw [hthen hb]; exact hnc1
    | false => rw [helse hb]; exact hnc1
  case recheck =>
    intro actor pids procs links ap d ap1 links1 newProcs hauth hu hp hnc
    exact update_appointment_plano_recheck hauth hu hp hnc
  case createRejects =>
    intro actor pids procs newId d s dh pid l objs htipo hdhs hdt hpid hpl hple hres hnc
    have hpnn : (jget d "paciente_id").isNull = false := by
      cases hj : jget d "paciente_id" <;> try rfl
      rw [hj] at hpid
      simp [findPatientId] at hpid
    have hfind : (["data_hora", "paciente_id", "procedimentos", "tipo"].find?
        (fun f => (jget d f).isNull)) = none := by
      rw [List.find?_eq_none]
      intro x hx
      simp only [List.mem_cons, List.not_mem_nil, or_false] at hx
      rcases hx with rfl | rfl | rfl | rfl
      · simp [hdhs, JVal.isNull]
      · simp [hpnn]
      · simp [hpl, JVal.isNull]
      · simp [htipo, JVal.isNull]
    have htv : is_valid_string (jget d "tipo") = true := by rw [htipo]; decide
    have hte : (jget d "tipo").eqStr "plano" = true := by rw [htipo]; decide
    simp only [create_appointment, hfind, htipo, hdhs, hdt, hpid, hpl, hres, hnc]
    rw [if_neg (by decide)]
    rw [if_neg (by simp [hple])]
    rw [if_pos (by decide)]
    simp

/-- C4 witness: part (3) applied concretely — changing a particular
appointment with no carteira to plano fails the final re-check. -/
theorem C4_carteira_clear_and_recheck_witness :
    update_appointment ⟨1, "default"⟩ [] [sampleProc] [⟨1, 1⟩] sampleAp
      [("tipo", .str "plano")] =
      .error ⟨400, "numero_carteira obrigatório para tipo plano"⟩ :=
  C4_carteira_clear_and_recheck.2.2.1 ⟨1, "default"⟩ [] [sampleProc] [⟨1, 1⟩] sampleAp
    [("tipo", .str "plano")] { sampleAp with tipo := "plano" } [⟨1, 1⟩] none
    (.inr rfl) rfl rfl (by decide)

/-! C1 — the `valor_total` consistency invariant. -/

/-- C1 counterexample: a consistent appointment (tipo 'particular',
total 50, linked to procedure 1 priced 50) stops satisfying the
invariant after `update_procedure` changes that procedure's
`valor_particular` to 75 — no recomputation of `valor_total` is
triggered by a procedure price edit, contradicting the claim that the
invariant survives EVERY mutating operation including price edits. -/
theorem C1_counterexample :
    valorTotalConsistent sampleAp [⟨1, 1⟩] [sampleProc] ∧
    update_procedure ⟨1, "admin"⟩ [sampleProc] sampleProc
      [("valor_particular", .num (.finite 75))] =
      .ok { sampleProc with valor_particular := .finite 75 } ∧
    ¬ valorTotalConsistent sampleAp [⟨1, 1⟩]
        [{ sampleProc with valor_particular := .finite 75 }] := by
  refine ⟨?_, by decide, ?_⟩
  · unfold valorTotalConsistent
    have hl : linkedProcedures sampleAp.id [⟨1, 1⟩] [sampleProc] = [sampleProc] := by decide
    rw [hl]
    show PyFloat.finite 50 = calc_valor_total [sampleProc] "particular"
    simp [calc_valor_total, PyFloat.add, sampleProc]
  · intro h
    unfold valorTotalConsistent at h
    have hl : linkedProcedures sampleAp.id [⟨1, 1⟩]
        [{ sampleProc with valor_particular := .finite 75 }] =
        [{ sampleProc with valor_particular := .finite 75 }] := by decide
    rw [hl] at h
    have h2 : PyFloat.finite 50 =
        calc_valor_total [{ sampleProc with valor_particular := .finite 75 }] "particular" := h
    simp [calc_valor_total, PyFloat.add, sampleProc] at h2

/-- C1 (amended): the invariant `valor_total = Σ linked prices per
tipo` holds after appointment creation, and is preserved by every
successful appointment update (re-established outright whenever the
payload replaced the procedure set or contained `tipo`); but an edit to
a linked Procedure's price fields does not trigger recomputation and
breaks it (see the counterexample). -/
theorem C1_valor_total_consistency :
    (∀ (actor : Actor) (pids : List ℕ) (procs : List Procedure)
       (links : List AppointmentProcedure) (newId : ℕ) (d : Payload)
       (ap : Appointment) (newLinks : List AppointmentProcedure),
      (procs.map Procedure.id).Nodup →
      (∀ lk ∈ links, lk.atendimento_id ≠ newId) →
      create_appointment actor pids procs newId d = .ok (ap, newLinks) →
      valorTotalConsistent ap (links ++ newLinks) procs) ∧
    (∀ (actor : Actor) (pids : List ℕ) (procs : List Procedure)
       (links : List AppointmentProcedure) (ap : Appointment) (d : Payload)
       (ap' : Appointment) (links' : List AppointmentProcedure),
      (procs.map Procedure.id).Nodup →
      valorTotalConsistent ap links procs →
      update_appointment actor pids procs links ap d = .ok (ap', links') →
      valorTotalConsistent ap' links' procs) := by
  constructor
  · intro actor pids procs links newId d ap newLinks hnd hfresh h
    obtain ⟨objs, hmem, hid, hval, hlk⟩ := create_appointment_ok_shape h
    unfold valorTotalConsistent
    rw [hval, hlk, hid]
    rw [linkedProcedures_fresh_append hnd hmem hfresh]
  · intro actor pids procs links ap d ap' links' hnd hcons h
    obtain ⟨ap1, links1, newProcs, hu, hl', hthen, helse⟩ := update_appointment_ok_inner h
    obtain ⟨hid, hval, hnullf, hsome, hnonef, htipof, hcf⟩ := applyAppointmentUpdates_ok hu
    cases hb : (newProcs.isSome || hasKey d "tipo") with
    | false =>
      have hap' := helse hb
      subst hap'
      have hnp : newProcs = none := by
        cases newProcs with
        | none => rfl
        | some o => rw [Bool.or_eq_false_iff] at hb; cases hb.1
      have hkt : hasKey d "tipo" = false := (Bool.or_eq_false_iff.mp hb).2
      have hl1 := hnonef hnp
      unfold valorTotalConsistent at hcons ⊢
      rw [hval, hid, htipof hkt, hl', hl1]
      exact hcons
    | true =>
      have hap' := hthen hb
      subst hap'
      cases hnp : newProcs with
      | none =>
        have hl1 := hnonef hnp
        unfold valorTotalConsistent
        simp only [Option.getD_none]
        show calc_valor_total (linkedProcedures ap1.id links1 procs) ap1.tipo =
          calc_valor_total (linkedProcedures ap1.id links' procs) ap1.tipo
        rw [hl']
      | some objs =>
        obtain ⟨hl1, hmem⟩ := hsome objs hnp
        unfold valorTotalConsistent
        simp only [Option.getD_some]
        show calc_valor_total objs ap1.tipo =
          calc_valor_total (linkedProcedures ap1.id links' procs) ap1.tipo
        rw [hl', hl1, hid]
        have hfresh2 : ∀ lk ∈ links.filter (fun lk => lk.atendimento_id ≠ ap.id),
            lk.atendimento_id ≠ ap.id := by
          intro lk hlk
          exact of_decide_eq_true (List.mem_filter.mp hlk).2
        rw [linkedProcedures_fresh_append hnd hmem hfresh2]

/-- C1 witness: the create conjunct at concrete data — the created
appointment is consistent with its fresh links. -/
theorem C1_valor_total_consistency_witness :
    valorTotalConsistent
      { id := 5, data_hora := ⟨2024, 1, 1, 10, 0, 0⟩, tipo := "particular",
        numero_carteira := none, valor_total := calc_valor_total [sampleProc] "particular",
        usuario_id := 1, paciente_id := 1 }
      ([] ++ [⟨5, 1⟩]) [sampleProc] :=
  C1_valor_total_consistency.1 ⟨1, "default"⟩ [1] [sampleProc] [] 5
    [("data_hora", .str "2024-01-01T10:00:00"), ("paciente_id", .num (.finite 1)),
      ("procedimentos", .list [.num (.finite 1)]), ("tipo", .str "particular")]
    _ _ (by decide) (by simp) rfl

/-! C2 — guardian (responsável) rule on Patient creation. -/

theorem create_patient_base {today : Date} {db : List Patient} {newId : ℕ} {d : Payload}
    {bs : String} {pn : Date}
    (hbase : patientRequiredFields.all (fun fd => !missingOrEmpty d fd.1) = true)
    (hcpf : db.any (fun p => p.cpf.jeq (jgetClean d "cpf")) = false)
    (hemail : db.any (fun p => p.email.jeq (jgetClean d "email")) = false)
    (hbs : jget d "data_nascimento" = .str bs)
    (hparse : parse_date (pyStrip bs) = some pn) :
    create_patient today db newId d =
      if ageOn today pn < 18 then minorGuardianStep today d (basePatientOf newId d pn)
      else .ok (basePatientOf newId d pn) := by
  have hfind : patientRequiredFields.find? (fun fd => missingOrEmpty d fd.1) = none := by
    rw [List.find?_eq_none]
    intro x hx
    have := List.all_eq_true.mp hbase x hx
    simpa using this
  have hcl : jgetClean d "data_nascimento" = .str (pyStrip bs) := by
    unfold jgetClean
    rw [hbs]
  simp only [create_patient, hfind, hcpf, hemail, Bool.false_eq_true, if_false, hcl, hparse]

/-- C2: patient creation computes age as floor(days/365); for payloads
passing base validation (all eleven fields, unique cpf/email, parseable
birth date) whose guardian values are strings or absent: when the age
is ≥ 18 the patient is created with no guardian fields; when the age is
< 18, creation succeeds (with all five guardian fields populated)
exactly when the five guardian fields are present and non-empty, the
guardian birth date parses, and the guardian's age (same formula) is
≥ 18 — and in every failing guardian case the response is a 400 error
(the pure model creates no row on error). -/
theorem C2_minor_guardian_rule (today : Date) (db : List Patient) (newId : ℕ) (d : Payload)
    (bs : String) (pn : Date)
    (hbase : patientRequiredFields.all (fun fd => !missingOrEmpty d fd.1) = true)
    (hcpf : db.any (fun p => p.cpf.jeq (jgetClean d "cpf")) = false)
    (hemail : db.any (fun p => p.email.jeq (jgetClean d "email")) = false)
    (hbs : jget d "data_nascimento" = .str bs)
    (hparse : parse_date (pyStrip bs) = some pn)
    (htyping : ∀ fd ∈ patientRespFields, (jget d fd.1).isStr = true ∨ jget d fd.1 = .null) :
    (18 ≤ ageOn today pn →
      create_patient today db newId d = .ok (basePatientOf newId d pn) ∧
      (basePatientOf newId d pn).resp_cpf = none ∧
      (basePatientOf newId d pn).resp_data_nascimento = none) ∧
    (ageOn today pn < 18 →
      ((∃ p, create_patient today db newId d = .ok p ∧ p.resp_cpf.isSome = true ∧
          p.resp_nome.isSome = true ∧ p.resp_data_nascimento.isSome = true ∧
          p.resp_email.isSome = true ∧ p.resp_telefone.isSome = true) ↔
        ((∀ fd ∈ patientRespFields, missingOrEmpty d fd.1 = false) ∧
         ∃ rd, parse_date (stripOf d "resp_data_nascimento") = some rd ∧
           18 ≤ ageOn today rd)) ∧
      (¬ ((∀ fd ∈ patientRespFields, missingOrEmpty d fd.1 = false) ∧
          ∃ rd, parse_date (stripOf d "resp_data_nascimento") = some rd ∧
            18 ≤ ageOn today rd) →
        ∃ e, create_patient today db newId d = .error e ∧ e.status = 400)) := by
  have hred := @create_patient_base today db newId d bs pn hbase hcpf hemail hbs hparse
  constructor
  · intro hage
    rw [hred, if_neg (not_lt.mpr hage)]
    exact ⟨rfl, rfl, rfl⟩
  · intro hage
    rw [hred, if_pos hage]
    cases hfind2 : patientRespFields.find? (fun fd => missingOrEmpty d fd.1) with
    | some fd =>
      have hfdmem := List.mem_of_find?_eq_some hfind2
      have hfdbad : missingOrEmpty d fd.1 = true := by
        have := List.find?_some hfind2
        simpa using this
      constructor
      · constructor
        · rintro ⟨p, hp, -⟩
          simp only [minorGuardianStep, hfind2] at hp
          cases hp
        · rintro ⟨hall, -⟩
          exact absurd (hall fd hfdmem) (by simp [hfdbad])
      · intro _
        exact ⟨⟨400, "Paciente menor: campo " ++ fd.2 ++ " obrigatório e não pode ser vazio"⟩,
          by simp only [minorGuardianStep, hfind2], rfl⟩
    | none =>
      have hall : ∀ fd ∈ patientRespFields, missingOrEmpty d fd.1 = false := by
        intro fd hfd
        have := List.find?_eq_none.mp hfind2 fd hfd
        simpa using this
      have hstr : ∀ fd ∈ patientRespFields, (jget d fd.1).isStr = true := by
        intro fd hfd
        rcases htyping fd hfd with hs | hnull
        · exact hs
        · have hme := hall fd hfd
          rw [missingOrEmpty, hnull] at hme
          simp [JVal.truthy] at hme
      have hcrash : patientRespFields.any (fun fd => !(jget d fd.1).isStr) = false := by
        rw [List.any_eq_false]
        intro fd hfd
        simp [hstr fd hfd]
      cases hr : parse_date (stripOf d "resp_data_nascimento") with
      | none =>
        constructor
        · constructor
          · rintro ⟨p, hp, -⟩
            simp only [minorGuardianStep, hfind2, hcrash, Bool.false_eq_true, if_false, hr] at hp
            cases hp
          · rintro ⟨-, rd, hrd, -⟩
            exact absurd hrd (by simp)
        · intro _
          refine ⟨⟨400, "resp_data_nascimento formato ISO (YYYY-MM-DD) esperado"⟩, ?_, rfl⟩
          simp only [minorGuardianStep, hfind2, hcrash, Bool.false_eq_true, if_false, hr]
      | some rd =>
        by_cases hrage : ageOn today rd < 18
        · constructor
          · constructor
            · rintro ⟨p, hp, -⟩
              simp only [minorGuardianStep, hfind2, hcrash, Bool.false_eq_true, if_false, hr,
                if_pos hrage] at hp
              cases hp
            · rintro ⟨-, rd2, hrd2, hage2⟩
              cases hrd2
              exact absurd hage2 (not_le.mpr hrage)
          · intro _
            refine ⟨⟨400, "Responsável não pode ser menor de idade"⟩, ?_, rfl⟩
            simp only [minorGuardianStep, hfind2, hcrash, Bool.false_eq_true, if_false, hr,
              if_pos hrage]
        · constructor
          · constructor
            · intro _
              exact ⟨hall, rd, rfl, not_lt.mp hrage⟩
            · intro _
              refine ⟨{ basePatientOf newId d pn with
                        resp_cpf := some (stripOf d "resp_cpf"),
                        resp_nome := some (stripOf d "resp_nome"),
                        resp_data_nascimento := some rd,
                        resp_email := some (stripOf d "resp_email"),
                        resp_telefone := some (stripOf d "resp_telefone") },
                ?_, rfl, rfl, rfl, rfl, rfl⟩
              simp only [minorGuardianStep, hfind2, hcrash, Bool.false_eq_true, if_false, hr,
                if_neg hrage]
          · intro hfalse
            exact absurd ⟨hall, rd, rfl, not_lt.mp hrage⟩ hfalse

/-- A payload for a minor patient with complete guardian data. -/
def sampleMinorPayload : Payload :=
  [("cpf", .str "123"), ("nome", .str "A"), ("email", .str "a@x"),
    ("telefone", .str "1"), ("data_nascimento", .str "2015-05-05"), ("estado", .str "SP"),
    ("cidade", .str "S"), ("bairro", .str "B"), ("cep", .str "1"), ("rua", .str "R"),
    ("numero", .str "7"), ("resp_cpf", .str "999"), ("resp_nome", .str "RN"),
    ("resp_data_nascimento", .str "1990-05-05"), ("resp_email", .str "r@x"),
    ("resp_telefone", .str "9")]

/-- C2 witness: a minor with complete guardian data is created with all
guardian fields populated. -/
theorem C2_minor_guardian_rule_witness :
    ∃ p, create_patient ⟨2025, 1, 1⟩ [] 1 sampleMinorPayload = .ok p ∧
      p.resp_cpf.isSome = true ∧ p.resp_nome.isSome = true ∧
      p.resp_data_nascimento.isSome = true ∧ p.resp_email.isSome = true ∧
      p.resp_telefone.isSome = true := by
  have h := C2_minor_guardian_rule ⟨2025, 1, 1⟩ [] 1 sampleMinorPayload "2015-05-05"
    ⟨2015, 5, 5⟩ (by decide) rfl rfl rfl (by decide)
    (by
      intro fd hfd
      simp only [patientRespFields, List.mem_cons, List.not_mem_nil, or_false] at hfd
      rcases hfd with rfl | rfl | rfl | rfl | rfl <;> exact .inl rfl)
  exact (h.2 (by decide)).1.mpr
    ⟨by
      intro fd hfd
      simp only [patientRespFields, List.mem_cons, List.not_mem_nil, or_false] at hfd
      rcases hfd with rfl | rfl | rfl | rfl | rfl <;> rfl,
    ⟨1990, 5, 5⟩, by decide, by decide⟩
